import Mathlib

/-!
# GeometryScriptingPlus: mesh simplification orchestration

A shallow embedding of `MeshSimplifyFunctionsPlus.cpp` / `.h`:
`ComputeSimplify`, `UMeshSimplifyFunctionsPlus::CalculateResult` and
`UMeshSimplifyFunctionsPlus::ApplySimplifyToTargetPercentage`.

The functions configure and drive collaborators that live outside the
repository (the edge-collapse simplifier, the polygroup remesher, the normal
kernel, the mesh container).  The collaborators' effect on a mesh is taken as
a parameter (`Engine`); every call the layer makes is recorded, in program
order, in a list of `Call`s, and every field the layer assigns on the
simplifier object is recorded in a `Reducer` record.
-/

namespace GeometryScriptingPlus

/-! ## Floating-point values -/

/-- Nearest integer to a rational, a tie going to the even neighbour
(IEEE 754 roundTiesToEven on the scaled significand). -/
def roundTiesToEven (q : ℚ) : ℤ :=
  let f := ⌊q⌋
  if q - f < 1 / 2 then f
  else if 1 / 2 < q - f then f + 1
  else if f % 2 = 0 then f else f + 1

/-- Value of `q` after rounding to the binary floating-point format with
`prec` significand bits whose smallest subnormal is `2 ^ emin`.  The spacing
of the format around `q` is `2 ^ e` with `e = max (⌊log₂ |q|⌋ - (prec - 1)) emin`.
Overflow to infinity is not represented: every quantity rounded in this
development is bounded by `2 ^ 128 * 2 ^ 31`, far below the `double` range. -/
def roundBinary (prec : ℕ) (emin : ℤ) (q : ℚ) : ℚ :=
  let e := max (Int.log 2 |q| - ((prec : ℤ) - 1)) emin
  (roundTiesToEven (q / 2 ^ e) : ℚ) * 2 ^ e

/-- Rounding to C++ `float` (IEEE 754 binary32). -/
def toFloat (q : ℚ) : ℚ := roundBinary 24 (-149) q

/-- Rounding to C++ `double` (IEEE 754 binary64). -/
def toDouble (q : ℚ) : ℚ := roundBinary 53 (-1074) q

/-- The C++ conversion `(int)x` of a `double`: truncation toward zero.  Outside
the `int` range the conversion is undefined in C++; the x86-64 conversion
instruction yields `INT_MIN` there. -/
def truncToInt32 (x : ℚ) : ℤ :=
  let t : ℤ := if 0 ≤ x then ⌊x⌋ else ⌈x⌉
  if -2 ^ 31 ≤ t ∧ t < 2 ^ 31 then t else -2 ^ 31

/-- A value of a C++ `float` that the layer only stores, forwards or compares
with zero: a finite value, an infinity or a NaN. -/
inductive FloatVal where
  | finite (q : ℚ)
  | posInf
  | negInf
  | nan
  deriving DecidableEq

/-- The C++ comparison `x > 0` on a floating-point value (false on NaN). -/
def FloatVal.gtZero : FloatVal → Bool
  | .finite q => decide (0 < q)
  | .posInf => true
  | .negInf => false
  | .nan => false

/-! ## Types declared in `MeshSimplifyFunctionsPlus.h` -/

/-- The enum `ERuntimeSimplifyTargetType`. -/
inductive ERuntimeSimplifyTargetType where
  | Percentage
  | TriangleCount
  | VertexCount
  | EdgeLength
  | MinimalPlanar
  deriving DecidableEq

/-- The enum `ERuntimeSimplifyType`. -/
inductive ERuntimeSimplifyType where
  | QEM
  | Attribute
  | MinimalExistingVertex
  | MinimalPlanar
  | MinimalPolygroup
  deriving DecidableEq

/-- The struct `FGeometryScriptPlusSimplifyMeshOptions`. -/
structure FGeometryScriptPlusSimplifyMeshOptions where
  SimplifyType : ERuntimeSimplifyType := .QEM
  bDiscardAttributes : Bool := false
  bGeometricConstraint : Bool := false
  GeometricTolerance : FloatVal := .finite 0
  bReproject : Bool := false
  deriving DecidableEq

/-! ## Types of the collaborators

Their declarations are not part of the repository; only the enumerators,
fields and member functions that the source names are represented. -/

/-- Edge-protection level `EEdgeRefineFlags`; the source names `NoFlip` and
`NoConstraint`. -/
inductive EEdgeRefineFlags where
  | NoConstraint
  | NoFlip
  | FullyConstrained
  deriving DecidableEq

/-- The enum `SimplificationType::ETargetProjectionMode`; the source names two
enumerators. -/
inductive ETargetProjectionMode where
  | NoProjection
  | AfterRefinement
  deriving DecidableEq

/-- The enum `SimplificationType::ESimplificationCollapseModes`. -/
inductive ESimplificationCollapseModes where
  | MinimalQuadricPositionError
  | MinimalExistingVertexError
  | AverageVertexPosition
  deriving DecidableEq

/-- The enum `SimplificationType::EGeometricErrorCriteria`; the source names one
enumerator. -/
inductive EGeometricErrorCriteria where
  | PredictedPointToProjectionTarget
  deriving DecidableEq

/-- The two instantiations of the template parameter `SimplificationType`. -/
inductive SimplificationType where
  | FQEMSimplification
  | FAttrMeshSimplification
  deriving DecidableEq

/-- The enum `EGeometryScriptErrorType`; the source names `InvalidInputs`. -/
inductive EGeometryScriptErrorType where
  | NoError
  | UnknownError
  | InvalidInputs
  | OperationFailed
  deriving DecidableEq

/-- A position, normal, colour or UV stored in a mesh.  The layer never
inspects one, so it is kept as an uninterpreted code. -/
abbrev Payload := ℕ

/-- The attribute set of a mesh (`FDynamicMeshAttributeSet`): the elements of
its primary UV overlay and of its primary normal overlay. -/
structure FDynamicMeshAttributeSet where
  PrimaryUV : List Payload
  PrimaryNormals : List Payload
  deriving DecidableEq

/-- The mesh container `FDynamicMesh3`, as far as the layer queries it:
vertices, triangles, the optional per-vertex channels, the optional polygroup
channel and the optional attribute set.  A channel is `none` when it is not
enabled (`HasVertexNormals()` etc. return false). -/
structure FDynamicMesh3 where
  Vertices : List Payload
  Triangles : List (ℕ × ℕ × ℕ)
  VertexNormals : Option (List Payload)
  VertexColors : Option (List Payload)
  VertexUVs : Option (List Payload)
  TriangleGroups : Option (List ℤ)
  AttributeSet : Option FDynamicMeshAttributeSet
  deriving DecidableEq

namespace FDynamicMesh3

/-- The query `TriangleCount()`. -/
def TriangleCount (M : FDynamicMesh3) : ℤ := (M.Triangles.length : ℤ)

/-- The query `HasAttributes()`. -/
def HasAttributes (M : FDynamicMesh3) : Bool := M.AttributeSet.isSome

/-- The query `HasVertexNormals()`. -/
def HasVertexNormals (M : FDynamicMesh3) : Bool := M.VertexNormals.isSome

/-- The query `HasVertexUVs()`. -/
def HasVertexUVs (M : FDynamicMesh3) : Bool := M.VertexUVs.isSome

/-- The result of `Dest.Copy(Src, bNormals, bColors, bUVs, bAttributes)`: the
destination becomes a copy of `Src`, keeping a per-vertex channel or the
attribute set only when the matching flag is set. -/
def Copy (Src : FDynamicMesh3) (bNormals bColors bUVs bAttributes : Bool) : FDynamicMesh3 :=
  { Vertices := Src.Vertices
    Triangles := Src.Triangles
    VertexNormals := if bNormals then Src.VertexNormals else none
    VertexColors := if bColors then Src.VertexColors else none
    VertexUVs := if bUVs then Src.VertexUVs else none
    TriangleGroups := Src.TriangleGroups
    AttributeSet := if bAttributes then Src.AttributeSet else none }

/-- The call `EnableAttributes()`: a fresh attribute set whose overlays have no element. -/
def EnableAttributes (M : FDynamicMesh3) : FDynamicMesh3 :=
  { M with AttributeSet := some { PrimaryUV := [], PrimaryNormals := [] } }

/-- The call `CopyVertexUVsToOverlay(M, *M.Attributes()->PrimaryUV())`: the primary UV
overlay receives one element per vertex, carrying that vertex's UV. -/
def CopyVertexUVsToOverlay (M : FDynamicMesh3) : FDynamicMesh3 :=
  match M.VertexUVs, M.AttributeSet with
  | some uvs, some A => { M with AttributeSet := some { A with PrimaryUV := uvs } }
  | _, _ => M

/-- The call `CopyVertexNormalsToOverlay(M, *M.Attributes()->PrimaryNormals())`: the
primary normal overlay receives one element per vertex, carrying that vertex's
normal. -/
def CopyVertexNormalsToOverlay (M : FDynamicMesh3) : FDynamicMesh3 :=
  match M.VertexNormals, M.AttributeSet with
  | some ns, some A => { M with AttributeSet := some { A with PrimaryNormals := ns } }
  | _, _ => M

end FDynamicMesh3

/-- The constraint set returned by
`FMeshConstraintsUtil::ConstrainAllBoundariesAndSeams`, identified by the mesh
it was computed on and the arguments it was computed with. -/
structure FMeshConstraints where
  Mesh : FDynamicMesh3
  MeshBoundaryConstraint : EEdgeRefineFlags
  GroupBoundaryConstraint : EEdgeRefineFlags
  MaterialBoundaryConstraint : EEdgeRefineFlags
  bAllowSeamSplits : Bool
  bAllowSeamSmoothing : Bool
  bAllowSeamCollapse : Bool
  deriving DecidableEq

/-- The four reduce entry points of the simplifier. -/
inductive ReduceCall where
  | SimplifyToTriangleCount (n : ℤ)
  | SimplifyToVertexCount (n : ℤ)
  | SimplifyToEdgeLength (len : FloatVal)
  | SimplifyToMinimalPlanar (angle : FloatVal)
  deriving DecidableEq

/-- The simplifier object `Reducer` of `ComputeSimplify`: its type and the
fields and setters the layer writes.  A field is `none` while the layer has
not written it (it then keeps the collaborator's own default).
`ProjectionTarget` holds the mesh the attached projection target is bound to. -/
structure Reducer where
  Kind : SimplificationType
  ProjectionMode : Option ETargetProjectionMode := none
  DEBUG_CHECK_LEVEL : Option ℤ := none
  bAllowSeamCollapse : Option Bool := none
  bRetainQuadricMemory : Option Bool := none
  EdgeFlipTolerance : Option ℚ := none
  ExternalConstraints : Option FMeshConstraints := none
  MeshBoundaryConstraint : Option EEdgeRefineFlags := none
  GroupBoundaryConstraint : Option EEdgeRefineFlags := none
  MaterialBoundaryConstraint : Option EEdgeRefineFlags := none
  CollapseMode : Option ESimplificationCollapseModes := none
  ProjectionTarget : Option FDynamicMesh3 := none
  GeometricErrorConstraint : Option EGeometricErrorCriteria := none
  GeometricErrorTolerance : Option FloatVal := none
  deriving DecidableEq

/-- A call the layer makes on a collaborator, as it appears in the source. -/
inductive Call where
  /-- The call `MakeShared<FDynamicMeshAABBTree3>(OriginalMesh, true)`: builds the spatial index. -/
  | BuildSpatialIndex
  /-- The call `ResultMesh->Copy(*OriginalMesh, bNormals, bColors, bUVs, bAttributes)`. -/
  | MeshCopy (bNormals bColors bUVs bAttributes : Bool)
  /-- The call `FMeshNormals::QuickComputeVertexNormals(*ResultMesh, bInvert)`. -/
  | QuickComputeVertexNormals (bInvert : Bool)
  /-- The call `SimplificationType Reducer(TargetMesh)`. -/
  | ConstructReducer (Kind : SimplificationType)
  /-- The call `Reducer.SetEdgeFlipTolerance(tol)`. -/
  | SetEdgeFlipTolerance (tol : ℚ)
  /-- The call `TargetMesh->Attributes()->SplitAllBowties()`. -/
  | SplitAllBowties
  /-- The call `FMeshConstraintsUtil::ConstrainAllBoundariesAndSeams(...)`. -/
  | ConstrainAllBoundariesAndSeams (MeshBoundary GroupBoundary MaterialBoundary : EEdgeRefineFlags)
      (bAllowSeamSplits bAllowSeamSmoothing bAllowSeamCollapse : Bool)
  /-- The call `Reducer.SetExternalConstraints(MoveTemp(constraints))`. -/
  | SetExternalConstraints
  /-- The call `Reducer.SetProjectionTarget(&ProjTarget)`. -/
  | SetProjectionTarget
  /-- A reduce call `Reducer.SimplifyTo...(...)`. -/
  | Reduce (c : ReduceCall)
  /-- The call `FGroupTopology Topology(ResultMesh.Get(), true)`. -/
  | BuildGroupTopology
  /-- The call `Remesh.Compute()` with `Remesh.SimplificationAngleTolerance` as given. -/
  | PolygroupRemeshCompute (SimplificationAngleTolerance : FloatVal)
  /-- The call `TargetMesh3->EnableAttributes()`. -/
  | EnableAttributes
  /-- The call `CopyVertexUVsToOverlay(...)`. -/
  | CopyVertexUVsToOverlay
  /-- The call `CopyVertexNormalsToOverlay(...)`. -/
  | CopyVertexNormalsToOverlay
  /-- The call `TargetMesh->SetMesh(*ResultMesh)`. -/
  | SetMesh
  deriving DecidableEq

/-- Whether a call is a reduce call of the simplifier. -/
def Call.isReduce : Call → Bool
  | .Reduce _ => true
  | _ => false

/-- Whether a call is made on the edge-collapse simplifier or builds an input
for it (constructor, setters, bowtie split, constraint construction, reduce). -/
def Call.isReducerCall : Call → Bool
  | .ConstructReducer _ => true
  | .SetEdgeFlipTolerance _ => true
  | .SplitAllBowties => true
  | .ConstrainAllBoundariesAndSeams _ _ _ _ _ _ => true
  | .SetExternalConstraints => true
  | .SetProjectionTarget => true
  | .Reduce _ => true
  | _ => false

/-- What the collaborators do to a mesh; the layer treats them as black boxes.

* `SplitAllBowties M`: the mesh after its attribute set split all bowties.
* `Simplify R c M`: the mesh after reduce call `c` on a simplifier configured
  as `R` (constraints and projection target included) working on `M`.
* `QuickComputeVertexNormals M bInvert`: the per-vertex normals computed for `M`.
* `PolygroupRemesh M tol`: the mesh after `FPolygroupRemesh::Compute` with
  `SimplificationAngleTolerance = tol`. -/
structure Engine where
  SplitAllBowties : FDynamicMesh3 → FDynamicMesh3
  Simplify : Reducer → ReduceCall → FDynamicMesh3 → FDynamicMesh3
  QuickComputeVertexNormals : FDynamicMesh3 → Bool → List Payload
  PolygroupRemesh : FDynamicMesh3 → FloatVal → FDynamicMesh3

/-! ## `ComputeSimplify` -/

/-- State threaded through `ComputeSimplify` and `CalculateResult`: the
simplifier object (once one is constructed), the working mesh (`*TargetMesh`
inside `ComputeSimplify`, `*ResultMesh` inside `CalculateResult`; both name
the same object) and the calls made so far, oldest first. -/
structure RunState where
  Reducer : Option Reducer
  Mesh : FDynamicMesh3
  Calls : List Call

/-- Lines 34-55 of `ComputeSimplify`: construction of the simplifier, its
first field writes, and the `if (bAllowSeamCollapse)` block. -/
def ComputeSimplify.Setup (E : Engine) (Kind : SimplificationType)
    (TargetMesh : FDynamicMesh3) (bReproject : Bool)
    (bAllowSeamCollapse bUseQuadricMemory : Bool) : Reducer × FDynamicMesh3 × List Call :=
  -- SimplificationType Reducer(TargetMesh); ProjectionMode, DEBUG_CHECK_LEVEL,
  -- bAllowSeamCollapse, bRetainQuadricMemory
  let R : Reducer :=
    { Kind := Kind
      ProjectionMode :=
        some (if bReproject then ETargetProjectionMode.AfterRefinement
              else ETargetProjectionMode.NoProjection)
      DEBUG_CHECK_LEVEL := some 0
      bAllowSeamCollapse := some bAllowSeamCollapse
      bRetainQuadricMemory := some bUseQuadricMemory }
  if bAllowSeamCollapse then
    -- Reducer.SetEdgeFlipTolerance(1.e-5);
    let R1 : Reducer := { R with EdgeFlipTolerance := some (toDouble (1 / 100000)) }
    let C1 : List Call := [Call.ConstructReducer Kind, Call.SetEdgeFlipTolerance (toDouble (1 / 100000))]
    -- if (TargetMesh->Attributes()) TargetMesh->Attributes()->SplitAllBowties();
    if TargetMesh.HasAttributes then
      (R1, E.SplitAllBowties TargetMesh, C1 ++ [Call.SplitAllBowties])
    else
      (R1, TargetMesh, C1)
  else
    (R, TargetMesh, [Call.ConstructReducer Kind])

/-- The function template `ComputeSimplify<SimplificationType>`; `Kind` is the
template argument.  `OriginalMeshSpatial` is only ever handed to the
projection target together with `OriginalMesh`, so the projection target is
represented by `OriginalMesh`.  Returns the simplifier as finally configured,
the working mesh after the reduce call, and the calls made in order. -/
def ComputeSimplify (E : Engine) (Kind : SimplificationType)
    (TargetMesh : FDynamicMesh3) (bReproject : Bool)
    (OriginalTriCount : ℤ) (OriginalMesh : FDynamicMesh3)
    (MeshBoundaryConstraint GroupBoundaryConstraint MaterialBoundaryConstraint : EEdgeRefineFlags)
    (bPreserveSharpEdges bAllowSeamCollapse : Bool)
    (TargetMode : ERuntimeSimplifyTargetType)
    (TargetPercentage : ℚ) (TargetCount : ℤ) (TargetEdgeLength : FloatVal)
    (AngleThreshold : FloatVal)
    (CollapseMode : ESimplificationCollapseModes)
    (bUseQuadricMemory : Bool)
    (GeometricTolerance : FloatVal) : RunState :=
  let Setup := ComputeSimplify.Setup E Kind TargetMesh bReproject bAllowSeamCollapse bUseQuadricMemory
  let R0 : Reducer := Setup.1
  let Mesh0 : FDynamicMesh3 := Setup.2.1
  let Calls0 : List Call := Setup.2.2
  -- FMeshConstraints constraints; ConstrainAllBoundariesAndSeams(...);
  -- Reducer.SetExternalConstraints(MoveTemp(constraints));
  let constraints : FMeshConstraints :=
    { Mesh := Mesh0
      MeshBoundaryConstraint := MeshBoundaryConstraint
      GroupBoundaryConstraint := GroupBoundaryConstraint
      MaterialBoundaryConstraint := MaterialBoundaryConstraint
      bAllowSeamSplits := true
      bAllowSeamSmoothing := !bPreserveSharpEdges
      bAllowSeamCollapse := bAllowSeamCollapse }
  let Calls1 : List Call :=
    Calls0 ++
      [Call.ConstrainAllBoundariesAndSeams MeshBoundaryConstraint GroupBoundaryConstraint
          MaterialBoundaryConstraint true (!bPreserveSharpEdges) bAllowSeamCollapse,
        Call.SetExternalConstraints]
  -- transfer constraint setting to the simplifier
  let R1 : Reducer :=
    { R0 with
      ExternalConstraints := some constraints
      MeshBoundaryConstraint := some MeshBoundaryConstraint
      GroupBoundaryConstraint := some GroupBoundaryConstraint
      MaterialBoundaryConstraint := some MaterialBoundaryConstraint }
  -- if (TargetMode == MinimalPlanar) { CollapseMode = AverageVertexPosition; GeometricTolerance = 0; }
  -- else { Reducer.CollapseMode = CollapseMode; }
  let R2 : Reducer :=
    { R1 with
      CollapseMode :=
        some (if TargetMode = ERuntimeSimplifyTargetType.MinimalPlanar
              then ESimplificationCollapseModes.AverageVertexPosition else CollapseMode) }
  let GeometricTolerance : FloatVal :=
    if TargetMode = ERuntimeSimplifyTargetType.MinimalPlanar then FloatVal.finite 0
    else GeometricTolerance
  -- if (bReproject || GeometricTolerance > 0) Reducer.SetProjectionTarget(&ProjTarget);
  let R3 : Reducer :=
    if bReproject || GeometricTolerance.gtZero then
      { R2 with ProjectionTarget := some OriginalMesh }
    else R2
  let Calls2 : List Call :=
    if bReproject || GeometricTolerance.gtZero then Calls1 ++ [Call.SetProjectionTarget]
    else Calls1
  -- if (GeometricTolerance > 0) { GeometricErrorConstraint = ...; GeometricErrorTolerance = ...; }
  let R4 : Reducer :=
    if GeometricTolerance.gtZero then
      { R3 with
        GeometricErrorConstraint := some EGeometricErrorCriteria.PredictedPointToProjectionTarget
        GeometricErrorTolerance := some GeometricTolerance }
    else R3
  -- the chain on TargetMode selecting the reduce call
  let Ratio : ℚ := toDouble (TargetPercentage / 100)
  let UseTarget : ℤ := max 4 (truncToInt32 (toDouble (Ratio * (OriginalTriCount : ℚ))))
  let c : ReduceCall :=
    match TargetMode with
    | ERuntimeSimplifyTargetType.Percentage => ReduceCall.SimplifyToTriangleCount UseTarget
    | ERuntimeSimplifyTargetType.TriangleCount => ReduceCall.SimplifyToTriangleCount TargetCount
    | ERuntimeSimplifyTargetType.VertexCount => ReduceCall.SimplifyToVertexCount TargetCount
    | ERuntimeSimplifyTargetType.EdgeLength => ReduceCall.SimplifyToEdgeLength TargetEdgeLength
    | ERuntimeSimplifyTargetType.MinimalPlanar => ReduceCall.SimplifyToMinimalPlanar AngleThreshold
  { Reducer := some R4
    Mesh := E.Simplify R4 c Mesh0
    Calls := Calls2 ++ [Call.Reduce c] }

/-! ## `UMeshSimplifyFunctionsPlus` -/

/-- The local `MinimalAngleThreshold` of `CalculateResult`: the literal `0.01`
(a `double`) stored in a `float`. -/
def MinimalAngleThreshold : FloatVal := FloatVal.finite (toFloat (toDouble (1 / 100)))

/-- Lines 146-248 of `CalculateResult`: the fixed policy, the working copy and
the dispatch on `Options.SimplifyType`.  `OriginalMesh` is the mesh the handle
holds (`TargetMesh->GetMeshPtr()`).  Every branch starts with the same
`ResultMesh->Copy(...)`, which replaces the default-constructed `ResultMesh`;
the branches on `Attribute` and `MinimalPlanar` then compute per-vertex normals
when the copy has neither an attribute set nor per-vertex normals.  The locals
`bPreventNormalFlips` and `bPreventTinyTriangles` are never read. -/
def CalculateResult.Dispatch (E : Engine) (OriginalMesh : FDynamicMesh3)
    (Options : FGeometryScriptPlusSimplifyMeshOptions)
    (TargetMode : ERuntimeSimplifyTargetType)
    (TargetPercentage : ℚ) (TargetCount : ℤ) (TargetEdgeLength : FloatVal)
    (PolyEdgeAngleTolerance : FloatVal) : RunState :=
  let MeshBoundaryConstraint := EEdgeRefineFlags.NoFlip
  let GroupBoundaryConstraint := EEdgeRefineFlags.NoConstraint
  let MaterialBoundaryConstraint := EEdgeRefineFlags.NoConstraint
  let bPreserveSharpEdges := true
  let bAllowSeamCollapse := bPreserveSharpEdges
  let MinimalPlanarAngleThresh := MinimalAngleThreshold
  -- OriginalMeshSpatial = MakeShared<FDynamicMeshAABBTree3>(OriginalMesh, true)
  let Calls0 : List Call := [Call.BuildSpatialIndex]
  let OriginalTriCount := OriginalMesh.TriangleCount
  let UseGeometricTolerance : FloatVal :=
    if Options.bGeometricConstraint then Options.GeometricTolerance else FloatVal.finite 0
  -- ResultMesh->Copy(*OriginalMesh, true, true, true, !Options.bDiscardAttributes), in every branch
  let Copied : FDynamicMesh3 := OriginalMesh.Copy true true true (!Options.bDiscardAttributes)
  let Calls1 : List Call := Calls0 ++ [Call.MeshCopy true true true (!Options.bDiscardAttributes)]
  -- if (!ResultMesh->HasAttributes() && !ResultMesh->HasVertexNormals())
  --   FMeshNormals::QuickComputeVertexNormals(*ResultMesh, false);
  let WithNormals : FDynamicMesh3 :=
    if !Copied.HasAttributes && !Copied.HasVertexNormals then
      { Copied with VertexNormals := some (E.QuickComputeVertexNormals Copied false) }
    else Copied
  let Calls2 : List Call :=
    if !Copied.HasAttributes && !Copied.HasVertexNormals then
      Calls1 ++ [Call.QuickComputeVertexNormals false]
    else Calls1
  match Options.SimplifyType with
  | ERuntimeSimplifyType.QEM =>
    let r := ComputeSimplify E SimplificationType.FQEMSimplification Copied Options.bReproject
      OriginalTriCount OriginalMesh
      MeshBoundaryConstraint GroupBoundaryConstraint MaterialBoundaryConstraint
      bPreserveSharpEdges bAllowSeamCollapse
      TargetMode TargetPercentage TargetCount TargetEdgeLength MinimalPlanarAngleThresh
      ESimplificationCollapseModes.MinimalQuadricPositionError true UseGeometricTolerance
    { r with Calls := Calls1 ++ r.Calls }
  | ERuntimeSimplifyType.Attribute =>
    let r := ComputeSimplify E SimplificationType.FAttrMeshSimplification WithNormals Options.bReproject
      OriginalTriCount OriginalMesh
      MeshBoundaryConstraint GroupBoundaryConstraint MaterialBoundaryConstraint
      bPreserveSharpEdges bAllowSeamCollapse
      TargetMode TargetPercentage TargetCount TargetEdgeLength MinimalPlanarAngleThresh
      ESimplificationCollapseModes.MinimalQuadricPositionError false UseGeometricTolerance
    { r with Calls := Calls2 ++ r.Calls }
  | ERuntimeSimplifyType.MinimalPlanar =>
    let r := ComputeSimplify E SimplificationType.FQEMSimplification WithNormals Options.bReproject
      OriginalTriCount OriginalMesh
      MeshBoundaryConstraint GroupBoundaryConstraint MaterialBoundaryConstraint
      bPreserveSharpEdges bAllowSeamCollapse
      ERuntimeSimplifyTargetType.MinimalPlanar TargetPercentage TargetCount TargetEdgeLength
      MinimalPlanarAngleThresh
      ESimplificationCollapseModes.MinimalQuadricPositionError false UseGeometricTolerance
    { r with Calls := Calls2 ++ r.Calls }
  | ERuntimeSimplifyType.MinimalExistingVertex =>
    let r := ComputeSimplify E SimplificationType.FQEMSimplification Copied Options.bReproject
      OriginalTriCount OriginalMesh
      MeshBoundaryConstraint GroupBoundaryConstraint MaterialBoundaryConstraint
      bPreserveSharpEdges bAllowSeamCollapse
      TargetMode TargetPercentage TargetCount TargetEdgeLength MinimalPlanarAngleThresh
      ESimplificationCollapseModes.MinimalExistingVertexError true UseGeometricTolerance
    { r with Calls := Calls1 ++ r.Calls }
  | ERuntimeSimplifyType.MinimalPolygroup =>
    -- FGroupTopology Topology(ResultMesh.Get(), true); FPolygroupRemesh Remesh(...);
    -- Remesh.SimplificationAngleTolerance = PolyEdgeAngleTolerance; Remesh.Compute();
    { Reducer := none
      Mesh := E.PolygroupRemesh Copied PolyEdgeAngleTolerance
      Calls := Calls1 ++ [Call.BuildGroupTopology, Call.PolygroupRemeshCompute PolyEdgeAngleTolerance] }

/-- Lines 250-266 of `CalculateResult`: the attribute repair applied to the
working mesh after the dispatch (`bResultMustHaveAttributesEnabled` is the
constant `true`). -/
def CalculateResult.AttributeRepair (E : Engine) (s : RunState) : RunState :=
  let bResultMustHaveAttributesEnabled := true
  -- if (!ResultMesh->HasAttributes()) FMeshNormals::QuickComputeVertexNormals(*ResultMesh);
  let s1 : RunState :=
    if !s.Mesh.HasAttributes then
      { s with
        Mesh := { s.Mesh with VertexNormals := some (E.QuickComputeVertexNormals s.Mesh false) }
        Calls := s.Calls ++ [Call.QuickComputeVertexNormals false] }
    else s
  -- if (!TargetMesh3->HasAttributes() && bResultMustHaveAttributesEnabled) { ... }
  if !s1.Mesh.HasAttributes && bResultMustHaveAttributesEnabled then
    let s2 : RunState :=
      { s1 with Mesh := s1.Mesh.EnableAttributes, Calls := s1.Calls ++ [Call.EnableAttributes] }
    let s3 : RunState :=
      if s2.Mesh.HasVertexUVs then
        { s2 with
          Mesh := s2.Mesh.CopyVertexUVsToOverlay
          Calls := s2.Calls ++ [Call.CopyVertexUVsToOverlay] }
      else s2
    if s3.Mesh.HasVertexNormals then
      { s3 with
        Mesh := s3.Mesh.CopyVertexNormalsToOverlay
        Calls := s3.Calls ++ [Call.CopyVertexNormalsToOverlay] }
    else s3
  else s1

/-- A `UDynamicMesh*` or `UGeometryScriptDebug*`: `none` is `nullptr`, `some a`
points to the object at address `a`. -/
abbrev Ptr := Option ℕ

/-- What a call of the public entry point leaves behind: the returned handle,
the mesh held by every `UDynamicMesh` object, the errors reported through
`AppendError` (each with the `Debug` sink it was handed), the calls made on
the collaborators, and the simplifier object if one was constructed. -/
structure Outcome where
  Return : Ptr
  Meshes : ℕ → FDynamicMesh3
  Errors : List (Ptr × EGeometryScriptErrorType)
  Calls : List Call
  Reducer : Option Reducer

/-- The function `UMeshSimplifyFunctionsPlus::CalculateResult`.  `Meshes a` is
the mesh held by the `UDynamicMesh` at address `a`; `TargetMesh` is
dereferenced unconditionally, so it is an address. -/
def CalculateResult (E : Engine) (Meshes : ℕ → FDynamicMesh3) (TargetMesh : ℕ)
    (Options : FGeometryScriptPlusSimplifyMeshOptions)
    (TargetMode : ERuntimeSimplifyTargetType)
    (TargetPercentage : ℚ) (TargetCount : ℤ) (TargetEdgeLength : FloatVal)
    (PolyEdgeAngleTolerance : FloatVal) : Outcome :=
  let s := CalculateResult.AttributeRepair E
    (CalculateResult.Dispatch E (Meshes TargetMesh) Options TargetMode TargetPercentage
      TargetCount TargetEdgeLength PolyEdgeAngleTolerance)
  -- TargetMesh->SetMesh(*ResultMesh); return TargetMesh;
  { Return := some TargetMesh
    Meshes := Function.update Meshes TargetMesh s.Mesh
    Errors := []
    Calls := s.Calls ++ [Call.SetMesh]
    Reducer := s.Reducer }

/-- The function `UMeshSimplifyFunctionsPlus::ApplySimplifyToTargetPercentage`.
The `int32` percentage is converted to the `float` parameter of
`CalculateResult`, whose remaining parameters take their declared defaults
(`TargetCount = 1000`, `TargetEdgeLength = 5`, `PolyEdgeAngleTolerance = 0.1`). -/
def ApplySimplifyToTargetPercentage (E : Engine) (Meshes : ℕ → FDynamicMesh3)
    (TargetMesh : Ptr) (Options : FGeometryScriptPlusSimplifyMeshOptions)
    (TargetPercentage : ℤ) (Debug : Ptr) : Outcome :=
  match TargetMesh with
  | none =>
    -- AppendError(Debug, EGeometryScriptErrorType::InvalidInputs, ...); return TargetMesh;
    { Return := none
      Meshes := Meshes
      Errors := [(Debug, EGeometryScriptErrorType.InvalidInputs)]
      Calls := []
      Reducer := none }
  | some a =>
    CalculateResult E Meshes a Options ERuntimeSimplifyTargetType.Percentage
      (toFloat (TargetPercentage : ℚ)) 1000 (FloatVal.finite (toFloat 5))
      (FloatVal.finite (toFloat (toDouble (1 / 10))))

/-! ## Observations on a run and concrete inputs -/

/-- Whether a call runs one of the two engines: a reduce call of the
simplifier or `FPolygroupRemesh::Compute`. -/
def Call.isEngineRun : Call → Bool
  | .Reduce _ => true
  | .PolygroupRemeshCompute _ => true
  | _ => false

/-- Whether a call is one of the steps whose order matters to the simplifier:
the bowtie split, the construction of the constraint set, its installation,
or a reduce call. -/
def Call.isSequencedStep : Call → Bool
  | .SplitAllBowties => true
  | .ConstrainAllBoundariesAndSeams _ _ _ _ _ _ => true
  | .SetExternalConstraints => true
  | .Reduce _ => true
  | _ => false

/-- The effective geometric tolerance in the specification's words:
`GeometricTolerance` when `bGeometricConstraint` is set and 0 otherwise, and
forced to 0 when the target mode handed to the simplifier is `MinimalPlanar`
(which is the case for the shape-preserving variant whatever the caller asks). -/
def Spec.EffectiveTolerance (Options : FGeometryScriptPlusSimplifyMeshOptions)
    (TargetMode : ERuntimeSimplifyTargetType) : FloatVal :=
  if Options.SimplifyType = ERuntimeSimplifyType.MinimalPlanar
      ∨ TargetMode = ERuntimeSimplifyTargetType.MinimalPlanar then FloatVal.finite 0
  else if Options.bGeometricConstraint then Options.GeometricTolerance
  else FloatVal.finite 0

/-- Collaborators that find nothing to do: no bowtie to split, no edge to
collapse, nothing to remesh; the normal kernel returns one normal per vertex
(the code `7`). -/
def IdleEngine : Engine :=
  { SplitAllBowties := fun M => M
    Simplify := fun _ _ M => M
    QuickComputeVertexNormals := fun M _ => M.Vertices.map (fun _ => 7)
    PolygroupRemesh := fun M _ => M }

/-- A single triangle whose normals and UVs live in the attribute overlays
only: no per-vertex normal or UV channel is enabled. -/
def OverlayTriangle : FDynamicMesh3 :=
  { Vertices := [10, 11, 12]
    Triangles := [(0, 1, 2)]
    VertexNormals := none
    VertexColors := none
    VertexUVs := none
    TriangleGroups := none
    AttributeSet := some { PrimaryUV := [20, 21, 22], PrimaryNormals := [30, 31, 32] } }

/-- A single triangle with per-vertex normals and UVs and no attribute set. -/
def PerVertexTriangle : FDynamicMesh3 :=
  { Vertices := [10, 11, 12]
    Triangles := [(0, 1, 2)]
    VertexNormals := some [30, 31, 32]
    VertexColors := none
    VertexUVs := some [20, 21, 22]
    TriangleGroups := none
    AttributeSet := none }

/-- Three vertices carrying per-vertex normals and UVs, no triangle, and an
attribute set that is enabled while both of its overlays are empty. -/
def EmptyOverlayVertices : FDynamicMesh3 :=
  { Vertices := [10, 11, 12]
    Triangles := []
    VertexNormals := some [30, 31, 32]
    VertexColors := none
    VertexUVs := some [20, 21, 22]
    TriangleGroups := none
    AttributeSet := some { PrimaryUV := [], PrimaryNormals := [] } }

/-- A mesh of one hundred triangles: a grid of 5 by 10 quads over 6 by 11
vertices, each quad split in two. -/
def HundredTriangles : FDynamicMesh3 :=
  { Vertices := List.range 66
    Triangles := (List.range 50).flatMap fun i =>
      [(i / 10 * 11 + i % 10, i / 10 * 11 + i % 10 + 1, i / 10 * 11 + i % 10 + 12),
        (i / 10 * 11 + i % 10, i / 10 * 11 + i % 10 + 12, i / 10 * 11 + i % 10 + 11)]
    VertexNormals := none
    VertexColors := none
    VertexUVs := none
    TriangleGroups := none
    AttributeSet := none }

/-- A store in which every `UDynamicMesh` object holds `PerVertexTriangle`. -/
def PerVertexTriangleStore : ℕ → FDynamicMesh3 := fun _ => PerVertexTriangle

/-- Options asking for the quadric variant with a geometric constraint of one
half and no reprojection. -/
def ConstrainedQuadricOptions : FGeometryScriptPlusSimplifyMeshOptions :=
  { SimplifyType := ERuntimeSimplifyType.QEM
    bDiscardAttributes := false
    bGeometricConstraint := true
    GeometricTolerance := FloatVal.finite (1 / 2)
    bReproject := false }

/-! ## Floating-point lemmas -/

theorem roundTiesToEven_eq_of_near {q : ℚ} {m : ℤ} (h : |q - m| < 1 / 2) :
    roundTiesToEven q = m := by
  have h1 := (abs_lt.mp h).1
  have h2 := (abs_lt.mp h).2
  unfold roundTiesToEven
  rcases le_or_lt (m : ℚ) q with hmq | hmq
  · have hf : ⌊q⌋ = m := by
      rw [Int.floor_eq_iff]
      constructor <;> linarith
    simp only [hf]
    rw [if_pos (by linarith)]
  · have hf : ⌊q⌋ = m - 1 := by
      rw [Int.floor_eq_iff]
      push_cast
      constructor <;> linarith
    simp only [hf]
    push_cast
    rw [if_neg (by linarith), if_pos (by linarith)]
    ring

theorem log_eq_of_bounds {q : ℚ} {k : ℤ} (hlo : (2 : ℚ) ^ k ≤ q) (hhi : q < (2 : ℚ) ^ (k + 1)) :
    Int.log 2 q = k := by
  have hq : 0 < q := lt_of_lt_of_le (by positivity) hlo
  have h1 : k ≤ Int.log 2 q := (Int.zpow_le_iff_le_log (by norm_num) hq).mp (by exact_mod_cast hlo)
  have h2 : Int.log 2 q < k + 1 :=
    (Int.lt_zpow_iff_log_lt (by norm_num) hq).mp (by exact_mod_cast hhi)
  omega

/-- A positive `q` in the binade `[2 ^ (e + prec - 1), 2 ^ (e + prec))` that lies
within half a unit in the last place of `m * 2 ^ e` rounds to `m * 2 ^ e`. -/
theorem roundBinary_eq_of_near (prec : ℕ) (emin : ℤ) (q : ℚ) (m e : ℤ)
    (he : emin ≤ e)
    (hlo : (2 : ℚ) ^ (e + ((prec : ℤ) - 1)) ≤ q) (hhi : q < (2 : ℚ) ^ (e + ((prec : ℤ) - 1) + 1))
    (hm : |q / 2 ^ e - m| < 1 / 2) :
    roundBinary prec emin q = (m : ℚ) * 2 ^ e := by
  have hq : 0 < q := lt_of_lt_of_le (by positivity) hlo
  have hlog : Int.log 2 |q| = e + ((prec : ℤ) - 1) := by
    rw [abs_of_pos hq]
    exact log_eq_of_bounds hlo hhi
  unfold roundBinary
  simp only [hlog]
  have : max (e + ((prec : ℤ) - 1) - ((prec : ℤ) - 1)) emin = e := by
    rw [max_eq_left] <;> omega
  rw [this, roundTiesToEven_eq_of_near hm]

theorem truncToInt32_eq_floor {x : ℚ} {n : ℤ} (h0 : 0 ≤ n) (h1 : n < 2 ^ 31)
    (hlo : (n : ℚ) ≤ x) (hhi : x < n + 1) : truncToInt32 x = n := by
  have hx : 0 ≤ x := le_trans (by exact_mod_cast h0) hlo
  have hf : ⌊x⌋ = n := by rw [Int.floor_eq_iff]; exact ⟨hlo, hhi⟩
  unfold truncToInt32
  simp only [hx, if_true, hf]
  rw [if_pos]
  constructor
  · linarith
  · exact h1

theorem toDouble_one_div_100 : toDouble (1 / 100) = 5764607523034235 / 2 ^ 59 := by
  have := roundBinary_eq_of_near 53 (-1074) (1 / 100)
    5764607523034235 (-59)
    (by norm_num) (by norm_num) (by norm_num) (by rw [abs_lt]; norm_num)
  rw [toDouble, this]; norm_num

/-- The `float` nearest to `0.01`. -/
theorem MinimalAngleThreshold_eq :
    MinimalAngleThreshold = FloatVal.finite (10737418 / 2 ^ 30) := by
  have := roundBinary_eq_of_near 24 (-149) (5764607523034235 / 2 ^ 59)
    10737418 (-30) (by norm_num) (by norm_num) (by norm_num) (by rw [abs_lt]; norm_num)
  rw [MinimalAngleThreshold, toDouble_one_div_100, toFloat, this]; norm_num

theorem toFloat_29 : toFloat 29 = 29 := by
  have := roundBinary_eq_of_near 24 (-149) (29)
    15204352 (-19)
    (by norm_num) (by norm_num) (by norm_num) (by rw [abs_lt]; norm_num)
  rw [toFloat, this]; norm_num

theorem toDouble_29_percent : toDouble (29 / 100) = 5224175567749775 / 2 ^ 54 := by
  have := roundBinary_eq_of_near 53 (-1074) (29 / 100)
    5224175567749775 (-54)
    (by norm_num) (by norm_num) (by norm_num) (by rw [abs_lt]; norm_num)
  rw [toDouble, this]; norm_num

theorem toDouble_29_percent_of_100 :
    toDouble (5224175567749775 / 2 ^ 54 * 100) = 8162774324609023 / 2 ^ 48 := by
  have := roundBinary_eq_of_near 53 (-1074) (5224175567749775 / 2 ^ 54 * 100)
    8162774324609023 (-48)
    (by norm_num) (by norm_num) (by norm_num) (by rw [abs_lt]; norm_num)
  rw [toDouble, this]; norm_num

/-- The value `UseTarget` of `ComputeSimplify` for 29 percent of 100 triangles:
`0.29` rounds below `29 / 100`, the product rounds to the `double` just below
`29`, and the conversion to `int` truncates it to `28`. -/
theorem UseTarget_29_percent_of_100 :
    max 4 (truncToInt32 (toDouble (toDouble (toFloat ((29 : ℤ) : ℚ) / 100) * ((100 : ℤ) : ℚ))))
      = 28 := by
  have h : truncToInt32 (8162774324609023 / 2 ^ 48) = 28 :=
    truncToInt32_eq_floor (by norm_num) (by norm_num) (by norm_num) (by norm_num)
  push_cast
  rw [toFloat_29, toDouble_29_percent, toDouble_29_percent_of_100, h]
  rfl

/-! ### Error analysis of the percentage target -/

theorem roundTiesToEven_abs_sub_le (x : ℚ) : |(roundTiesToEven x : ℚ) - x| ≤ 1 / 2 := by
  have h1 : (⌊x⌋ : ℚ) ≤ x := Int.floor_le x
  have h2 : x < ⌊x⌋ + 1 := Int.lt_floor_add_one x
  unfold roundTiesToEven
  simp only
  split_ifs with ha hb hc
  · rw [abs_le]; constructor <;> linarith
  · push_cast; rw [abs_le]; constructor <;> linarith
  · rw [abs_le]; constructor <;> linarith
  · push_cast; rw [abs_le]; constructor <;> linarith

/-- In the normal range the rounding error is at most `q / 2 ^ prec`. -/
theorem roundBinary_abs_sub_le (prec : ℕ) (emin : ℤ) (q : ℚ)
    (hnorm : (2 : ℚ) ^ (emin + ((prec : ℤ) - 1)) ≤ q) :
    |roundBinary prec emin q - q| ≤ q / 2 ^ prec := by
  have hq : 0 < q := lt_of_lt_of_le (by positivity) hnorm
  have hL : emin + ((prec : ℤ) - 1) ≤ Int.log 2 q :=
    (Int.zpow_le_iff_le_log (by norm_num) hq).mp (by exact_mod_cast hnorm)
  have hpow : (2 : ℚ) ^ (Int.log 2 q) ≤ q := by
    have := Int.zpow_log_le_self (b := 2) (r := q) (by norm_num) hq
    exact_mod_cast this
  unfold roundBinary
  rw [abs_of_pos hq]
  have he : max (Int.log 2 q - ((prec : ℤ) - 1)) emin = Int.log 2 q - ((prec : ℤ) - 1) := by
    rw [max_eq_left]; omega
  simp only [he]
  set e : ℤ := Int.log 2 q - ((prec : ℤ) - 1) with hedef
  have h2e : (0 : ℚ) < 2 ^ e := by positivity
  have hr := roundTiesToEven_abs_sub_le (q / 2 ^ e)
  have hfac : (roundTiesToEven (q / 2 ^ e) : ℚ) * 2 ^ e - q
      = ((roundTiesToEven (q / 2 ^ e) : ℚ) - q / 2 ^ e) * 2 ^ e := by
    field_simp
  rw [hfac, abs_mul, abs_of_pos h2e]
  have h2 : (2 : ℚ) ^ e * 2 ^ prec = 2 * 2 ^ (Int.log 2 q) := by
    have : (2 : ℚ) ^ prec = 2 ^ (prec : ℤ) := by norm_cast
    rw [this, ← zpow_add₀ (by norm_num : (2 : ℚ) ≠ 0)]
    have : e + (prec : ℤ) = Int.log 2 q + 1 := by omega
    rw [this, zpow_add₀ (by norm_num : (2 : ℚ) ≠ 0), zpow_one, mul_comm]
  rw [le_div_iff₀ (by positivity)]
  calc |(roundTiesToEven (q / 2 ^ e) : ℚ) - q / 2 ^ e| * 2 ^ e * 2 ^ prec
      = |(roundTiesToEven (q / 2 ^ e) : ℚ) - q / 2 ^ e| * (2 ^ e * 2 ^ prec) := by ring
    _ ≤ 1 / 2 * (2 ^ e * 2 ^ prec) := by
        apply mul_le_mul_of_nonneg_right hr (by positivity)
    _ = 2 ^ (Int.log 2 q) := by rw [h2]; ring
    _ ≤ q := hpow


/-- An `int32` percentage between 1 and 100 converts to `float` exactly. -/
theorem toFloat_percentage (p : ℤ) (hp1 : 1 ≤ p) (hp2 : p ≤ 100) : toFloat (p : ℚ) = p := by
  have key : ∀ (L : ℕ), L ≤ 23 → (2 : ℤ) ^ L ≤ p → p < 2 ^ (L + 1) → toFloat (p : ℚ) = p := by
    intro L hL hlo hhi
    have h := roundBinary_eq_of_near 24 (-149) (p : ℚ) (p * 2 ^ (23 - L)) ((L : ℤ) - 23)
      (by omega)
      (by
        have : (L : ℤ) - 23 + (((24 : ℕ) : ℤ) - 1) = (L : ℤ) := by push_cast; ring
        rw [this, zpow_natCast]
        exact_mod_cast hlo)
      (by
        have : (L : ℤ) - 23 + (((24 : ℕ) : ℤ) - 1) + 1 = ((L + 1 : ℕ) : ℤ) := by push_cast; ring
        rw [this, zpow_natCast]
        exact_mod_cast hhi)
      (by
        have h2 : ((2 : ℚ) ^ ((L : ℤ) - 23)) * 2 ^ (23 - L) = 1 := by
          have : ((2 : ℚ) ^ (23 - L)) = (2 : ℚ) ^ (((23 - L : ℕ)) : ℤ) := by norm_cast
          rw [this, ← zpow_add₀ (by norm_num : (2 : ℚ) ≠ 0)]
          have : (L : ℤ) - 23 + ((23 - L : ℕ) : ℤ) = 0 := by omega
          rw [this, zpow_zero]
        have h3 : (p : ℚ) / 2 ^ ((L : ℤ) - 23) = (p : ℚ) * 2 ^ (23 - L) := by
          rw [div_eq_iff (by positivity), mul_assoc, mul_comm ((2 : ℚ) ^ (23 - L)), h2, mul_one]
        rw [h3]
        push_cast
        simp)
    rw [toFloat, h]
    push_cast
    have h2 : ((2 : ℚ) ^ (23 - L)) * 2 ^ ((L : ℤ) - 23) = 1 := by
      have : ((2 : ℚ) ^ (23 - L)) = (2 : ℚ) ^ (((23 - L : ℕ)) : ℤ) := by norm_cast
      rw [this, ← zpow_add₀ (by norm_num : (2 : ℚ) ≠ 0)]
      have : ((23 - L : ℕ) : ℤ) + ((L : ℤ) - 23) = 0 := by omega
      rw [this, zpow_zero]
    rw [mul_assoc, h2, mul_one]
  by_cases h1 : p < 2
  · exact key 0 (by norm_num) (by omega) (by omega)
  by_cases h2 : p < 4
  · exact key 1 (by norm_num) (by omega) (by omega)
  by_cases h3 : p < 8
  · exact key 2 (by norm_num) (by omega) (by omega)
  by_cases h4 : p < 16
  · exact key 3 (by norm_num) (by omega) (by omega)
  by_cases h5 : p < 32
  · exact key 4 (by norm_num) (by omega) (by omega)
  by_cases h6 : p < 64
  · exact key 5 (by norm_num) (by omega) (by omega)
  · exact key 6 (by norm_num) (by omega) (by omega)


/-- The `double` computed for `Ratio * OriginalTriCount` lies within `2 ^ (-20)`
of the exact `p / 100 * N`. -/
theorem percentage_product_close (p N : ℤ) (hp1 : 1 ≤ p) (hp2 : p ≤ 100) (hN1 : 1 ≤ N)
    (hN : N < 2 ^ 31) :
    |toDouble (toDouble ((p : ℚ) / 100) * (N : ℚ)) - (p : ℚ) / 100 * N| < 1 / 2 ^ 20 := by
  have hpq1 : (1 : ℚ) ≤ p := by exact_mod_cast hp1
  have hpq2 : (p : ℚ) ≤ 100 := by exact_mod_cast hp2
  have hNq1 : (1 : ℚ) ≤ N := by exact_mod_cast hN1
  have hNq : (N : ℚ) < 2 ^ 31 := by exact_mod_cast hN
  set a : ℚ := (p : ℚ) / 100 with ha
  have ha1 : 1 / 100 ≤ a := by rw [ha]; linarith
  have ha2 : a ≤ 1 := by rw [ha]; linarith
  have hsmall : (2 : ℚ) ^ ((-1074 : ℤ) + (((53 : ℕ) : ℤ) - 1)) ≤ 1 / 200 := by
    have : (-1074 : ℤ) + (((53 : ℕ) : ℤ) - 1) = -1022 := by norm_num
    rw [this]
    calc (2 : ℚ) ^ (-1022 : ℤ) ≤ 2 ^ (-8 : ℤ) :=
          zpow_le_zpow_right₀ (by norm_num) (by norm_num)
      _ ≤ 1 / 200 := by norm_num
  have hR := roundBinary_abs_sub_le 53 (-1074) a (le_trans hsmall (by linarith))
  rw [← toDouble] at hR
  set R : ℚ := toDouble a with hRdef
  have hRlo := (abs_le.mp hR).1
  have hRhi := (abs_le.mp hR).2
  have h53 : (0 : ℚ) < 2 ^ 53 := by positivity
  have hdiv : a / 2 ^ 53 ≤ a / 2 := by
    apply div_le_div_of_nonneg_left (by linarith) (by norm_num) (by norm_num)
  have hRpos : 1 / 200 ≤ R := by linarith
  have hxlo : 1 / 200 ≤ R * N := by nlinarith
  have hY := roundBinary_abs_sub_le 53 (-1074) (R * N) (le_trans hsmall hxlo)
  rw [← toDouble] at hY
  set y : ℚ := toDouble (R * N) with hydef
  have hYlo := (abs_le.mp hY).1
  have hYhi := (abs_le.mp hY).2
  -- |R N - a N| ≤ a N / 2^53
  have hN0 : (0 : ℚ) ≤ N := by linarith
  have hx1 : R * N - a * N ≤ a / 2 ^ 53 * N := by nlinarith
  have hx2 : -(a / 2 ^ 53 * N) ≤ R * N - a * N := by nlinarith
  have haN : a / 2 ^ 53 * N ≤ 2 ^ 31 / 2 ^ 53 := by
    rw [div_mul_eq_mul_div]
    apply div_le_div_of_nonneg_right _ (le_of_lt h53)
    nlinarith
  have hxup : R * N ≤ 2 ^ 32 := by nlinarith
  have hxdiv : R * N / 2 ^ 53 ≤ 2 ^ 32 / 2 ^ 53 :=
    div_le_div_of_nonneg_right hxup (le_of_lt h53)
  rw [abs_lt]
  constructor
  · have : (-(1 : ℚ) / 2 ^ 20) < -(2 ^ 32 / 2 ^ 53) - 2 ^ 31 / 2 ^ 53 := by norm_num
    calc -(1 / 2 ^ 20 : ℚ) = -1 / 2 ^ 20 := by ring
      _ < -(2 ^ 32 / 2 ^ 53) - 2 ^ 31 / 2 ^ 53 := this
      _ ≤ y - a * N := by linarith
  · have : (2 : ℚ) ^ 32 / 2 ^ 53 + 2 ^ 31 / 2 ^ 53 < 1 / 2 ^ 20 := by norm_num
    linarith


theorem toDouble_zero : toDouble 0 = 0 := by
  unfold toDouble roundBinary
  simp only [zero_div]
  rw [roundTiesToEven_eq_of_near (q := 0) (m := 0) (by norm_num)]
  simp

/-- What `ComputeSimplify` computes before the clamp, for a percentage `p` in
`[1, 100]` and a triangle count `N` in the `int` range: the exact
`floor(p / 100 * N)` or one less, and the exact value whenever `100` does not
divide `p * N`. -/
theorem percentage_target_floor_or_one_less (p N : ℤ) (hp1 : 1 ≤ p) (hp2 : p ≤ 100)
    (hN0 : 0 ≤ N) (hN : N < 2 ^ 31) :
    (truncToInt32 (toDouble (toDouble (toFloat (p : ℚ) / 100) * (N : ℚ))) = ⌊(p : ℚ) / 100 * N⌋
      ∨ truncToInt32 (toDouble (toDouble (toFloat (p : ℚ) / 100) * (N : ℚ)))
          = ⌊(p : ℚ) / 100 * N⌋ - 1) ∧
    (¬ (100 : ℤ) ∣ p * N →
      truncToInt32 (toDouble (toDouble (toFloat (p : ℚ) / 100) * (N : ℚ)))
        = ⌊(p : ℚ) / 100 * N⌋) := by
  rw [toFloat_percentage p hp1 hp2]
  rcases eq_or_lt_of_le hN0 with hz | hpos
  · subst hz
    have h0 : truncToInt32 (0 : ℚ) = 0 :=
      truncToInt32_eq_floor (le_refl 0) (by norm_num) (by norm_num) (by norm_num)
    simp [toDouble_zero, h0]
  · have hN1 : 1 ≤ N := hpos
    have hclose := percentage_product_close p N hp1 hp2 hN1 hN
    set y : ℚ := toDouble (toDouble ((p : ℚ) / 100) * (N : ℚ)) with hy
    have hylo := (abs_lt.mp hclose).1
    have hyhi := (abs_lt.mp hclose).2
    -- p * N = 100 * k + r
    have hM := Int.emod_add_ediv (p * N) 100
    have hr0 := Int.emod_nonneg (p * N) (by norm_num : (100 : ℤ) ≠ 0)
    have hr1 := Int.emod_lt_of_pos (p * N) (by norm_num : (0 : ℤ) < 100)
    set k : ℤ := p * N / 100 with hk
    set r : ℤ := p * N % 100 with hr
    have hq : (p : ℚ) / 100 * N = k + (r : ℚ) / 100 := by
      have : ((p * N : ℤ) : ℚ) = ((r + 100 * k : ℤ) : ℚ) := by rw [hM]
      push_cast at this
      field_simp
      linarith
    have hrq0 : (0 : ℚ) ≤ r := by exact_mod_cast hr0
    have hrq1 : (r : ℚ) ≤ 99 := by
      have : r ≤ 99 := by omega
      exact_mod_cast this
    have hfloor : ⌊(p : ℚ) / 100 * N⌋ = k := by
      rw [Int.floor_eq_iff, hq]
      constructor <;> linarith
    have hpN : 1 ≤ p * N := by nlinarith
    have hpN2 : p * N ≤ 100 * N := by nlinarith
    have hk0 : 0 ≤ k := by omega
    have hk1 : k < 2 ^ 31 := by omega
    rw [hfloor]
    rw [hq] at hylo hyhi
    have hdvd : (100 : ℤ) ∣ p * N ↔ r = 0 := by
      rw [hr]; exact Int.dvd_iff_emod_eq_zero
    by_cases hrz : r = 0
    · have hk1' : 1 ≤ k := by omega
      have hrq : (r : ℚ) = 0 := by exact_mod_cast hrz
      rw [hrq] at hylo hyhi
      refine ⟨?_, fun h => absurd (hdvd.mpr hrz) h⟩
      rcases le_or_lt (k : ℚ) y with hky | hky
      · left
        exact truncToInt32_eq_floor hk0 hk1 hky (by linarith)
      · right
        apply truncToInt32_eq_floor (by omega) (by omega)
        · push_cast
          have : (1 : ℚ) / 2 ^ 20 ≤ 1 := by norm_num
          linarith
        · push_cast; linarith
    · have hr1' : 1 ≤ r := by omega
      have hrq1' : (1 : ℚ) ≤ r := by exact_mod_cast hr1'
      have hres : truncToInt32 y = k := by
        apply truncToInt32_eq_floor hk0 hk1
        · have : (1 : ℚ) / 2 ^ 20 ≤ 1 / 100 := by norm_num
          linarith
        · have : (1 : ℚ) / 2 ^ 20 ≤ 1 / 100 := by norm_num
          linarith
      exact ⟨Or.inl hres, fun _ => hres⟩


theorem toFloat_50 : toFloat 50 = 50 := by
  have h := toFloat_percentage 50 (by norm_num) (by norm_num)
  exact_mod_cast h

theorem toDouble_one_half : toDouble (1 / 2) = 1 / 2 := by
  have := roundBinary_eq_of_near 53 (-1074) (1 / 2) 4503599627370496 (-53)
    (by norm_num) (by norm_num) (by norm_num) (by rw [abs_lt]; norm_num)
  rw [toDouble, this]; norm_num

theorem toDouble_500 : toDouble 500 = 500 := by
  have := roundBinary_eq_of_near 53 (-1074) 500 8796093022208000 (-44)
    (by norm_num) (by norm_num) (by norm_num) (by rw [abs_lt]; norm_num)
  rw [toDouble, this]; norm_num

/-- The value `UseTarget` for 50 percent of 1000 triangles is 500: every step
is exact. -/
theorem UseTarget_50_percent_of_1000 :
    max 4 (truncToInt32 (toDouble (toDouble (toFloat ((50 : ℤ) : ℚ) / 100) * ((1000 : ℤ) : ℚ))))
      = 500 := by
  have h : truncToInt32 (500 : ℚ) = 500 :=
    truncToInt32_eq_floor (by norm_num) (by norm_num) (by norm_num) (by norm_num)
  push_cast
  rw [toFloat_50]
  norm_num
  rw [toDouble_one_half]
  norm_num
  rw [toDouble_500, h]
  rfl


theorem gtZero_finite_zero : (FloatVal.finite 0).gtZero = false := by
  simp [FloatVal.gtZero]

/-! ## The effective tolerance -/

theorem EffectiveTolerance_of_not_shapePreserving
    (Options : FGeometryScriptPlusSimplifyMeshOptions) (TargetMode : ERuntimeSimplifyTargetType)
    (h : Options.SimplifyType ≠ ERuntimeSimplifyType.MinimalPlanar) :
    (if TargetMode = ERuntimeSimplifyTargetType.MinimalPlanar then FloatVal.finite 0
      else if Options.bGeometricConstraint = true then Options.GeometricTolerance
      else FloatVal.finite 0) = Spec.EffectiveTolerance Options TargetMode := by
  unfold Spec.EffectiveTolerance
  by_cases hT : TargetMode = ERuntimeSimplifyTargetType.MinimalPlanar <;> simp [h, hT]

theorem EffectiveTolerance_of_shapePreserving
    (Options : FGeometryScriptPlusSimplifyMeshOptions) (TargetMode : ERuntimeSimplifyTargetType)
    (h : Options.SimplifyType = ERuntimeSimplifyType.MinimalPlanar) :
    FloatVal.finite 0 = Spec.EffectiveTolerance Options TargetMode := by
  simp [Spec.EffectiveTolerance, h]

theorem EffectiveTolerance_of_no_constraint
    (Options : FGeometryScriptPlusSimplifyMeshOptions) (TargetMode : ERuntimeSimplifyTargetType)
    (h : Options.bGeometricConstraint = false) :
    (Spec.EffectiveTolerance Options TargetMode).gtZero = false := by
  unfold Spec.EffectiveTolerance
  split_ifs <;> first | exact gtZero_finite_zero | simp_all

/-! ## The attribute repair -/

theorem AttributeRepair_of_attributes (E : Engine) (s : RunState)
    (h : s.Mesh.HasAttributes = true) : CalculateResult.AttributeRepair E s = s := by
  unfold CalculateResult.AttributeRepair
  simp [h]

theorem AttributeRepair_of_no_attributes (E : Engine) (s : RunState)
    (h : s.Mesh.HasAttributes = false) :
    CalculateResult.AttributeRepair E s =
      { Reducer := s.Reducer
        Mesh :=
          { s.Mesh with
            VertexNormals := some (E.QuickComputeVertexNormals s.Mesh false)
            AttributeSet := some
              { PrimaryUV := s.Mesh.VertexUVs.getD []
                PrimaryNormals := E.QuickComputeVertexNormals s.Mesh false } }
        Calls := s.Calls ++ [Call.QuickComputeVertexNormals false, Call.EnableAttributes] ++
          (if s.Mesh.HasVertexUVs then [Call.CopyVertexUVsToOverlay] else []) ++
          [Call.CopyVertexNormalsToOverlay] } := by
  obtain ⟨R, M, C⟩ := s
  obtain ⟨vs, ts, ns, cs, uvs, gs, as⟩ := M
  cases as with
  | some A => simp [FDynamicMesh3.HasAttributes] at h
  | none =>
    cases uvs <;>
    simp [CalculateResult.AttributeRepair, FDynamicMesh3.HasAttributes,
      FDynamicMesh3.HasVertexUVs, FDynamicMesh3.HasVertexNormals, FDynamicMesh3.EnableAttributes,
      FDynamicMesh3.CopyVertexUVsToOverlay, FDynamicMesh3.CopyVertexNormalsToOverlay]

theorem AttributeRepair_Reducer (E : Engine) (s : RunState) :
    (CalculateResult.AttributeRepair E s).Reducer = s.Reducer := by
  cases h : s.Mesh.HasAttributes
  · rw [AttributeRepair_of_no_attributes E s h]
  · rw [AttributeRepair_of_attributes E s h]

/-- The attribute repair only appends calls, none of them on an engine. -/
theorem AttributeRepair_Calls (E : Engine) (s : RunState) :
    ∃ tail : List Call, (CalculateResult.AttributeRepair E s).Calls = s.Calls ++ tail ∧
      ∀ c ∈ tail, c = Call.QuickComputeVertexNormals false ∨ c = Call.EnableAttributes ∨
        c = Call.CopyVertexUVsToOverlay ∨ c = Call.CopyVertexNormalsToOverlay := by
  cases h : s.Mesh.HasAttributes
  · rw [AttributeRepair_of_no_attributes E s h]
    refine ⟨[Call.QuickComputeVertexNormals false, Call.EnableAttributes] ++
          (if s.Mesh.HasVertexUVs then [Call.CopyVertexUVsToOverlay] else []) ++
          [Call.CopyVertexNormalsToOverlay], by simp, ?_⟩
    intro c hc
    split_ifs at hc <;> simp at hc <;> tauto
  · rw [AttributeRepair_of_attributes E s h]
    exact ⟨[], by simp, by simp⟩

theorem AttributeRepair_Calls_filter (E : Engine) (s : RunState) (P : Call → Bool)
    (h1 : P (Call.QuickComputeVertexNormals false) = false) (h2 : P Call.EnableAttributes = false)
    (h3 : P Call.CopyVertexUVsToOverlay = false) (h4 : P Call.CopyVertexNormalsToOverlay = false) :
    (CalculateResult.AttributeRepair E s).Calls.filter P = s.Calls.filter P := by
  obtain ⟨tail, ht, hall⟩ := AttributeRepair_Calls E s
  rw [ht, List.filter_append]
  have : tail.filter P = [] := by
    rw [List.filter_eq_nil_iff]
    intro c hc
    rcases hall c hc with rfl | rfl | rfl | rfl <;> simp [*]
  rw [this, List.append_nil]

theorem CalculateResult_Reducer (E : Engine) (Meshes : ℕ → FDynamicMesh3) (TargetMesh : ℕ)
    (Options : FGeometryScriptPlusSimplifyMeshOptions) (TargetMode : ERuntimeSimplifyTargetType)
    (TargetPercentage : ℚ) (TargetCount : ℤ) (TargetEdgeLength PolyEdgeAngleTolerance : FloatVal) :
    (CalculateResult E Meshes TargetMesh Options TargetMode TargetPercentage TargetCount
      TargetEdgeLength PolyEdgeAngleTolerance).Reducer =
    (CalculateResult.Dispatch E (Meshes TargetMesh) Options TargetMode TargetPercentage
      TargetCount TargetEdgeLength PolyEdgeAngleTolerance).Reducer := by
  simp [CalculateResult, AttributeRepair_Reducer]

/-- Calls selected by a predicate that ignores the repair calls and `SetMesh`
are the selected calls of the dispatch. -/
theorem CalculateResult_Calls_filter (E : Engine) (Meshes : ℕ → FDynamicMesh3) (TargetMesh : ℕ)
    (Options : FGeometryScriptPlusSimplifyMeshOptions) (TargetMode : ERuntimeSimplifyTargetType)
    (TargetPercentage : ℚ) (TargetCount : ℤ) (TargetEdgeLength PolyEdgeAngleTolerance : FloatVal)
    (P : Call → Bool)
    (h1 : P (Call.QuickComputeVertexNormals false) = false) (h2 : P Call.EnableAttributes = false)
    (h3 : P Call.CopyVertexUVsToOverlay = false) (h4 : P Call.CopyVertexNormalsToOverlay = false)
    (h5 : P Call.SetMesh = false) :
    (CalculateResult E Meshes TargetMesh Options TargetMode TargetPercentage TargetCount
      TargetEdgeLength PolyEdgeAngleTolerance).Calls.filter P =
    (CalculateResult.Dispatch E (Meshes TargetMesh) Options TargetMode TargetPercentage
      TargetCount TargetEdgeLength PolyEdgeAngleTolerance).Calls.filter P := by
  simp [CalculateResult, List.filter_append, AttributeRepair_Calls_filter, h1, h2, h3, h4, h5]

/-- The simplifier object at the reduce call, field by field. -/
theorem ComputeSimplify_Reducer (E : Engine) (Kind : SimplificationType)
    (TargetMesh : FDynamicMesh3) (bReproject : Bool)
    (OriginalTriCount : ℤ) (OriginalMesh : FDynamicMesh3)
    (MeshBoundaryConstraint GroupBoundaryConstraint MaterialBoundaryConstraint : EEdgeRefineFlags)
    (bPreserveSharpEdges bAllowSeamCollapse : Bool)
    (TargetMode : ERuntimeSimplifyTargetType)
    (TargetPercentage : ℚ) (TargetCount : ℤ) (TargetEdgeLength : FloatVal)
    (AngleThreshold : FloatVal)
    (CollapseMode : ESimplificationCollapseModes)
    (bUseQuadricMemory : Bool)
    (GeometricTolerance : FloatVal) :
    (ComputeSimplify E Kind TargetMesh bReproject OriginalTriCount OriginalMesh
      MeshBoundaryConstraint GroupBoundaryConstraint MaterialBoundaryConstraint
      bPreserveSharpEdges bAllowSeamCollapse TargetMode TargetPercentage TargetCount
      TargetEdgeLength AngleThreshold CollapseMode bUseQuadricMemory GeometricTolerance).Reducer =
    some
      { Kind := Kind
        ProjectionMode :=
          some (if bReproject then ETargetProjectionMode.AfterRefinement
                else ETargetProjectionMode.NoProjection)
        DEBUG_CHECK_LEVEL := some 0
        bAllowSeamCollapse := some bAllowSeamCollapse
        bRetainQuadricMemory := some bUseQuadricMemory
        EdgeFlipTolerance := if bAllowSeamCollapse then some (toDouble (1 / 100000)) else none
        ExternalConstraints := some
          { Mesh := if bAllowSeamCollapse && TargetMesh.HasAttributes
              then E.SplitAllBowties TargetMesh else TargetMesh
            MeshBoundaryConstraint := MeshBoundaryConstraint
            GroupBoundaryConstraint := GroupBoundaryConstraint
            MaterialBoundaryConstraint := MaterialBoundaryConstraint
            bAllowSeamSplits := true
            bAllowSeamSmoothing := !bPreserveSharpEdges
            bAllowSeamCollapse := bAllowSeamCollapse }
        MeshBoundaryConstraint := some MeshBoundaryConstraint
        GroupBoundaryConstraint := some GroupBoundaryConstraint
        MaterialBoundaryConstraint := some MaterialBoundaryConstraint
        CollapseMode :=
          some (if TargetMode = ERuntimeSimplifyTargetType.MinimalPlanar
                then ESimplificationCollapseModes.AverageVertexPosition else CollapseMode)
        ProjectionTarget :=
          if bReproject || (if TargetMode = ERuntimeSimplifyTargetType.MinimalPlanar
              then FloatVal.finite 0 else GeometricTolerance).gtZero
          then some OriginalMesh else none
        GeometricErrorConstraint :=
          if (if TargetMode = ERuntimeSimplifyTargetType.MinimalPlanar
              then FloatVal.finite 0 else GeometricTolerance).gtZero
          then some EGeometricErrorCriteria.PredictedPointToProjectionTarget else none
        GeometricErrorTolerance :=
          if (if TargetMode = ERuntimeSimplifyTargetType.MinimalPlanar
              then FloatVal.finite 0 else GeometricTolerance).gtZero
          then some (if TargetMode = ERuntimeSimplifyTargetType.MinimalPlanar
              then FloatVal.finite 0 else GeometricTolerance) else none } := by
  unfold ComputeSimplify ComputeSimplify.Setup
  cases bAllowSeamCollapse <;> cases h1 : TargetMesh.HasAttributes <;> cases bReproject <;>
    cases h2 : (if TargetMode = ERuntimeSimplifyTargetType.MinimalPlanar
              then FloatVal.finite 0 else GeometricTolerance).gtZero <;>
    simp [h1, h2]

/-- The calls of `ComputeSimplify`, in program order. -/
theorem ComputeSimplify_Calls (E : Engine) (Kind : SimplificationType)
    (TargetMesh : FDynamicMesh3) (bReproject : Bool)
    (OriginalTriCount : ℤ) (OriginalMesh : FDynamicMesh3)
    (MeshBoundaryConstraint GroupBoundaryConstraint MaterialBoundaryConstraint : EEdgeRefineFlags)
    (bPreserveSharpEdges bAllowSeamCollapse : Bool)
    (TargetMode : ERuntimeSimplifyTargetType)
    (TargetPercentage : ℚ) (TargetCount : ℤ) (TargetEdgeLength : FloatVal)
    (AngleThreshold : FloatVal)
    (CollapseMode : ESimplificationCollapseModes)
    (bUseQuadricMemory : Bool)
    (GeometricTolerance : FloatVal) :
    (ComputeSimplify E Kind TargetMesh bReproject OriginalTriCount OriginalMesh
      MeshBoundaryConstraint GroupBoundaryConstraint MaterialBoundaryConstraint
      bPreserveSharpEdges bAllowSeamCollapse TargetMode TargetPercentage TargetCount
      TargetEdgeLength AngleThreshold CollapseMode bUseQuadricMemory GeometricTolerance).Calls =
    [Call.ConstructReducer Kind] ++
    (if bAllowSeamCollapse then [Call.SetEdgeFlipTolerance (toDouble (1 / 100000))] else []) ++
    (if bAllowSeamCollapse && TargetMesh.HasAttributes then [Call.SplitAllBowties] else []) ++
    [Call.ConstrainAllBoundariesAndSeams MeshBoundaryConstraint GroupBoundaryConstraint
        MaterialBoundaryConstraint true (!bPreserveSharpEdges) bAllowSeamCollapse,
      Call.SetExternalConstraints] ++
    (if bReproject || (if TargetMode = ERuntimeSimplifyTargetType.MinimalPlanar
          then FloatVal.finite 0 else GeometricTolerance).gtZero
      then [Call.SetProjectionTarget] else []) ++
    [Call.Reduce
      (match TargetMode with
        | ERuntimeSimplifyTargetType.Percentage =>
          ReduceCall.SimplifyToTriangleCount
            (max 4 (truncToInt32 (toDouble (toDouble (TargetPercentage / 100) * (OriginalTriCount : ℚ)))))
        | ERuntimeSimplifyTargetType.TriangleCount => ReduceCall.SimplifyToTriangleCount TargetCount
        | ERuntimeSimplifyTargetType.VertexCount => ReduceCall.SimplifyToVertexCount TargetCount
        | ERuntimeSimplifyTargetType.EdgeLength => ReduceCall.SimplifyToEdgeLength TargetEdgeLength
        | ERuntimeSimplifyTargetType.MinimalPlanar =>
          ReduceCall.SimplifyToMinimalPlanar AngleThreshold)] := by
  unfold ComputeSimplify ComputeSimplify.Setup
  cases bAllowSeamCollapse <;> cases h1 : TargetMesh.HasAttributes <;> cases bReproject <;>
    cases h2 : (if TargetMode = ERuntimeSimplifyTargetType.MinimalPlanar
              then FloatVal.finite 0 else GeometricTolerance).gtZero <;>
    simp [h1, h2]


/-- The mesh returned by `ComputeSimplify` is the engine's output for the
final simplifier configuration, run on the mesh the constraints were built on. -/
theorem ComputeSimplify_Mesh (E : Engine) (Kind : SimplificationType)
    (TargetMesh : FDynamicMesh3) (bReproject : Bool)
    (OriginalTriCount : ℤ) (OriginalMesh : FDynamicMesh3)
    (MeshBoundaryConstraint GroupBoundaryConstraint MaterialBoundaryConstraint : EEdgeRefineFlags)
    (bPreserveSharpEdges bAllowSeamCollapse : Bool)
    (TargetMode : ERuntimeSimplifyTargetType)
    (TargetPercentage : ℚ) (TargetCount : ℤ) (TargetEdgeLength : FloatVal)
    (AngleThreshold : FloatVal)
    (CollapseMode : ESimplificationCollapseModes)
    (bUseQuadricMemory : Bool)
    (GeometricTolerance : FloatVal) :
    ∀ R : Reducer,
      (ComputeSimplify E Kind TargetMesh bReproject OriginalTriCount OriginalMesh
        MeshBoundaryConstraint GroupBoundaryConstraint MaterialBoundaryConstraint
        bPreserveSharpEdges bAllowSeamCollapse TargetMode TargetPercentage TargetCount
        TargetEdgeLength AngleThreshold CollapseMode bUseQuadricMemory GeometricTolerance).Reducer
        = some R →
      (ComputeSimplify E Kind TargetMesh bReproject OriginalTriCount OriginalMesh
        MeshBoundaryConstraint GroupBoundaryConstraint MaterialBoundaryConstraint
        bPreserveSharpEdges bAllowSeamCollapse TargetMode TargetPercentage TargetCount
        TargetEdgeLength AngleThreshold CollapseMode bUseQuadricMemory GeometricTolerance).Mesh
        = E.Simplify R
            (match TargetMode with
              | ERuntimeSimplifyTargetType.Percentage =>
                ReduceCall.SimplifyToTriangleCount
                  (max 4 (truncToInt32
                    (toDouble (toDouble (TargetPercentage / 100) * (OriginalTriCount : ℚ)))))
              | ERuntimeSimplifyTargetType.TriangleCount =>
                ReduceCall.SimplifyToTriangleCount TargetCount
              | ERuntimeSimplifyTargetType.VertexCount => ReduceCall.SimplifyToVertexCount TargetCount
              | ERuntimeSimplifyTargetType.EdgeLength =>
                ReduceCall.SimplifyToEdgeLength TargetEdgeLength
              | ERuntimeSimplifyTargetType.MinimalPlanar =>
                ReduceCall.SimplifyToMinimalPlanar AngleThreshold)
            (if bAllowSeamCollapse && TargetMesh.HasAttributes
              then E.SplitAllBowties TargetMesh else TargetMesh) := by
  intro R hR
  have hR' := hR
  simp only [ComputeSimplify, Option.some.injEq] at hR'
  subst hR'
  have hM : (ComputeSimplify.Setup E Kind TargetMesh bReproject bAllowSeamCollapse
      bUseQuadricMemory).2.1 = (if bAllowSeamCollapse && TargetMesh.HasAttributes
        then E.SplitAllBowties TargetMesh else TargetMesh) := by
    unfold ComputeSimplify.Setup
    cases bAllowSeamCollapse <;> by_cases h1 : TargetMesh.HasAttributes = true <;> simp [h1]
  rw [← hM]
  rfl


/-! ## The dispatch -/

/-- The calls of a simplifier run up to the end of the dispatch: a prefix that
prepares the working copy, then the calls of `ComputeSimplify` under the fixed
policy of `CalculateResult`. -/
theorem Dispatch_Calls (E : Engine) (OriginalMesh : FDynamicMesh3)
    (Options : FGeometryScriptPlusSimplifyMeshOptions)
    (TargetMode : ERuntimeSimplifyTargetType)
    (TargetPercentage : ℚ) (TargetCount : ℤ) (TargetEdgeLength PolyEdgeAngleTolerance : FloatVal)
    (hVariant : Options.SimplifyType ≠ ERuntimeSimplifyType.MinimalPolygroup) :
    ∃ (pre : List Call) (k : SimplificationType) (c : ReduceCall),
      (CalculateResult.Dispatch E OriginalMesh Options TargetMode TargetPercentage TargetCount
        TargetEdgeLength PolyEdgeAngleTolerance).Calls =
        pre ++ ([Call.ConstructReducer k, Call.SetEdgeFlipTolerance (toDouble (1 / 100000))] ++
          (if (OriginalMesh.Copy true true true (!Options.bDiscardAttributes)).HasAttributes
            then [Call.SplitAllBowties] else []) ++
          [Call.ConstrainAllBoundariesAndSeams EEdgeRefineFlags.NoFlip EEdgeRefineFlags.NoConstraint
              EEdgeRefineFlags.NoConstraint true false true,
            Call.SetExternalConstraints] ++
          (if Options.bReproject || (Spec.EffectiveTolerance Options TargetMode).gtZero
            then [Call.SetProjectionTarget] else []) ++
          [Call.Reduce c]) ∧
      (∀ p ∈ pre, p = Call.BuildSpatialIndex
        ∨ p = Call.MeshCopy true true true (!Options.bDiscardAttributes)
        ∨ p = Call.QuickComputeVertexNormals false) ∧
      c = (match (if Options.SimplifyType = ERuntimeSimplifyType.MinimalPlanar
                  then ERuntimeSimplifyTargetType.MinimalPlanar else TargetMode) with
        | ERuntimeSimplifyTargetType.Percentage =>
          ReduceCall.SimplifyToTriangleCount
            (max 4 (truncToInt32
              (toDouble (toDouble (TargetPercentage / 100) * (OriginalMesh.TriangleCount : ℚ)))))
        | ERuntimeSimplifyTargetType.TriangleCount => ReduceCall.SimplifyToTriangleCount TargetCount
        | ERuntimeSimplifyTargetType.VertexCount => ReduceCall.SimplifyToVertexCount TargetCount
        | ERuntimeSimplifyTargetType.EdgeLength => ReduceCall.SimplifyToEdgeLength TargetEdgeLength
        | ERuntimeSimplifyTargetType.MinimalPlanar =>
          ReduceCall.SimplifyToMinimalPlanar MinimalAngleThreshold) := by
  have hattr : ∀ (c : Bool) (M : FDynamicMesh3) (v : Option (List Payload)),
      (if c = true then { M with VertexNormals := v } else M).HasAttributes = M.HasAttributes := by
    intro c M v; cases c <;> rfl
  obtain ⟨st, bd, bg, tol, br⟩ := Options
  cases st
  case MinimalPolygroup => exact absurd rfl hVariant
  case QEM =>
    refine ⟨[Call.BuildSpatialIndex, Call.MeshCopy true true true (!bd)],
      SimplificationType.FQEMSimplification, _, ?_, ?_, rfl⟩
    · simp only [CalculateResult.Dispatch, ComputeSimplify_Calls]
      rw [EffectiveTolerance_of_not_shapePreserving
        { SimplifyType := ERuntimeSimplifyType.QEM, bDiscardAttributes := bd,
          bGeometricConstraint := bg, GeometricTolerance := tol, bReproject := br } TargetMode
          (by simp)]
      simp
    · intro p hp; simp at hp; tauto
  case MinimalExistingVertex =>
    refine ⟨[Call.BuildSpatialIndex, Call.MeshCopy true true true (!bd)],
      SimplificationType.FQEMSimplification, _, ?_, ?_, rfl⟩
    · simp only [CalculateResult.Dispatch, ComputeSimplify_Calls]
      rw [EffectiveTolerance_of_not_shapePreserving
        { SimplifyType := ERuntimeSimplifyType.MinimalExistingVertex, bDiscardAttributes := bd,
          bGeometricConstraint := bg, GeometricTolerance := tol, bReproject := br } TargetMode
          (by simp)]
      simp
    · intro p hp; simp at hp; tauto
  case Attribute =>
    refine ⟨[Call.BuildSpatialIndex, Call.MeshCopy true true true (!bd)] ++
        (if (!(OriginalMesh.Copy true true true (!bd)).HasAttributes
            && !(OriginalMesh.Copy true true true (!bd)).HasVertexNormals) = true
          then [Call.QuickComputeVertexNormals false] else []),
      SimplificationType.FAttrMeshSimplification, _, ?_, ?_, rfl⟩
    · simp only [CalculateResult.Dispatch, ComputeSimplify_Calls, hattr]
      rw [EffectiveTolerance_of_not_shapePreserving
        { SimplifyType := ERuntimeSimplifyType.Attribute, bDiscardAttributes := bd,
          bGeometricConstraint := bg, GeometricTolerance := tol, bReproject := br } TargetMode
          (by simp)]
      split_ifs <;> simp_all
    · intro p hp; split_ifs at hp <;> simp at hp <;> tauto
  case MinimalPlanar =>
    refine ⟨[Call.BuildSpatialIndex, Call.MeshCopy true true true (!bd)] ++
        (if (!(OriginalMesh.Copy true true true (!bd)).HasAttributes
            && !(OriginalMesh.Copy true true true (!bd)).HasVertexNormals) = true
          then [Call.QuickComputeVertexNormals false] else []),
      SimplificationType.FQEMSimplification, _, ?_, ?_, rfl⟩
    · simp only [CalculateResult.Dispatch, ComputeSimplify_Calls, hattr, if_true]
      rw [EffectiveTolerance_of_shapePreserving
        { SimplifyType := ERuntimeSimplifyType.MinimalPlanar, bDiscardAttributes := bd,
          bGeometricConstraint := bg, GeometricTolerance := tol, bReproject := br } TargetMode rfl]
      split_ifs <;> simp_all
    · intro p hp; split_ifs at hp <;> simp at hp <;> tauto


/-- The projection target and the error criterion of a simplifier run, in
terms of the effective tolerance. -/
theorem Dispatch_projection (E : Engine) (OriginalMesh : FDynamicMesh3)
    (Options : FGeometryScriptPlusSimplifyMeshOptions)
    (TargetMode : ERuntimeSimplifyTargetType)
    (TargetPercentage : ℚ) (TargetCount : ℤ) (TargetEdgeLength PolyEdgeAngleTolerance : FloatVal)
    (hVariant : Options.SimplifyType ≠ ERuntimeSimplifyType.MinimalPolygroup) :
    ∃ R : Reducer,
      (CalculateResult.Dispatch E OriginalMesh Options TargetMode TargetPercentage TargetCount
        TargetEdgeLength PolyEdgeAngleTolerance).Reducer = some R ∧
      (R.ProjectionTarget =
        if Options.bReproject || (Spec.EffectiveTolerance Options TargetMode).gtZero
        then some OriginalMesh else none) ∧
      (R.GeometricErrorConstraint =
        if (Spec.EffectiveTolerance Options TargetMode).gtZero
        then some EGeometricErrorCriteria.PredictedPointToProjectionTarget else none) ∧
      (R.GeometricErrorTolerance =
        if (Spec.EffectiveTolerance Options TargetMode).gtZero
        then some (Spec.EffectiveTolerance Options TargetMode) else none) := by
  obtain ⟨st, bd, bg, tol, br⟩ := Options
  cases st
  case MinimalPolygroup => exact absurd rfl hVariant
  case MinimalPlanar =>
    simp only [CalculateResult.Dispatch, ComputeSimplify_Reducer, if_true]
    rw [EffectiveTolerance_of_shapePreserving
      { SimplifyType := ERuntimeSimplifyType.MinimalPlanar, bDiscardAttributes := bd,
        bGeometricConstraint := bg, GeometricTolerance := tol, bReproject := br } TargetMode rfl]
    exact ⟨_, rfl, rfl, rfl, rfl⟩
  case QEM =>
    simp only [CalculateResult.Dispatch, ComputeSimplify_Reducer]
    rw [EffectiveTolerance_of_not_shapePreserving
      { SimplifyType := ERuntimeSimplifyType.QEM, bDiscardAttributes := bd,
        bGeometricConstraint := bg, GeometricTolerance := tol, bReproject := br } TargetMode
        (by simp)]
    exact ⟨_, rfl, rfl, rfl, rfl⟩
  case Attribute =>
    simp only [CalculateResult.Dispatch, ComputeSimplify_Reducer]
    rw [EffectiveTolerance_of_not_shapePreserving
      { SimplifyType := ERuntimeSimplifyType.Attribute, bDiscardAttributes := bd,
        bGeometricConstraint := bg, GeometricTolerance := tol, bReproject := br } TargetMode
        (by simp)]
    exact ⟨_, rfl, rfl, rfl, rfl⟩
  case MinimalExistingVertex =>
    simp only [CalculateResult.Dispatch, ComputeSimplify_Reducer]
    rw [EffectiveTolerance_of_not_shapePreserving
      { SimplifyType := ERuntimeSimplifyType.MinimalExistingVertex, bDiscardAttributes := bd,
        bGeometricConstraint := bg, GeometricTolerance := tol, bReproject := br } TargetMode
        (by simp)]
    exact ⟨_, rfl, rfl, rfl, rfl⟩

/-- The `SetProjectionTarget` calls of a simplifier run. -/
theorem CalculateResult_projection_calls (E : Engine) (Meshes : ℕ → FDynamicMesh3)
    (TargetMesh : ℕ) (Options : FGeometryScriptPlusSimplifyMeshOptions)
    (TargetMode : ERuntimeSimplifyTargetType)
    (TargetPercentage : ℚ) (TargetCount : ℤ) (TargetEdgeLength PolyEdgeAngleTolerance : FloatVal)
    (hVariant : Options.SimplifyType ≠ ERuntimeSimplifyType.MinimalPolygroup) :
    (CalculateResult E Meshes TargetMesh Options TargetMode TargetPercentage TargetCount
      TargetEdgeLength PolyEdgeAngleTolerance).Calls.filter
        (fun c => decide (c = Call.SetProjectionTarget))
      = if Options.bReproject || (Spec.EffectiveTolerance Options TargetMode).gtZero
        then [Call.SetProjectionTarget] else [] := by
  obtain ⟨pre, k, c, hCalls, hpre, -⟩ := Dispatch_Calls E (Meshes TargetMesh) Options TargetMode
    TargetPercentage TargetCount TargetEdgeLength PolyEdgeAngleTolerance hVariant
  rw [CalculateResult_Calls_filter _ _ _ _ _ _ _ _ _ _ (by simp) (by simp) (by simp) (by simp)
    (by simp), hCalls]
  have hp : pre.filter (fun c => decide (c = Call.SetProjectionTarget)) = [] := by
    rw [List.filter_eq_nil_iff]
    intro p hp
    rcases hpre p hp with rfl | rfl | rfl <;> simp
  rw [List.filter_append, hp]
  split_ifs <;> simp [List.filter_append, List.filter_cons]

/-- The reduce calls of a simplifier run: exactly one. -/
theorem CalculateResult_reduce_calls (E : Engine) (Meshes : ℕ → FDynamicMesh3) (TargetMesh : ℕ)
    (Options : FGeometryScriptPlusSimplifyMeshOptions) (TargetMode : ERuntimeSimplifyTargetType)
    (TargetPercentage : ℚ) (TargetCount : ℤ) (TargetEdgeLength PolyEdgeAngleTolerance : FloatVal)
    (hVariant : Options.SimplifyType ≠ ERuntimeSimplifyType.MinimalPolygroup) :
    (CalculateResult E Meshes TargetMesh Options TargetMode TargetPercentage TargetCount
      TargetEdgeLength PolyEdgeAngleTolerance).Calls.filter Call.isReduce =
    [Call.Reduce
      (match (if Options.SimplifyType = ERuntimeSimplifyType.MinimalPlanar
              then ERuntimeSimplifyTargetType.MinimalPlanar else TargetMode) with
        | ERuntimeSimplifyTargetType.Percentage =>
          ReduceCall.SimplifyToTriangleCount
            (max 4 (truncToInt32
              (toDouble (toDouble (TargetPercentage / 100) * ((Meshes TargetMesh).TriangleCount : ℚ)))))
        | ERuntimeSimplifyTargetType.TriangleCount => ReduceCall.SimplifyToTriangleCount TargetCount
        | ERuntimeSimplifyTargetType.VertexCount => ReduceCall.SimplifyToVertexCount TargetCount
        | ERuntimeSimplifyTargetType.EdgeLength => ReduceCall.SimplifyToEdgeLength TargetEdgeLength
        | ERuntimeSimplifyTargetType.MinimalPlanar =>
          ReduceCall.SimplifyToMinimalPlanar MinimalAngleThreshold)] := by
  obtain ⟨pre, k, c, hCalls, hpre, hc⟩ := Dispatch_Calls E (Meshes TargetMesh) Options TargetMode
    TargetPercentage TargetCount TargetEdgeLength PolyEdgeAngleTolerance hVariant
  rw [CalculateResult_Calls_filter _ _ _ _ _ _ _ _ _ _ rfl rfl rfl rfl rfl, hCalls, ← hc]
  have hp : pre.filter Call.isReduce = [] := by
    rw [List.filter_eq_nil_iff]
    intro p hp
    rcases hpre p hp with rfl | rfl | rfl <;> simp [Call.isReduce]
  rw [List.filter_append, hp]
  split_ifs <;> simp [List.filter_append, List.filter_cons, Call.isReduce]


/-- Data flow of a simplifier run: the constraint set installed on the
simplifier was computed on the working mesh after its bowties were split, and
the reduce call works on that same mesh. -/
theorem Dispatch_dataflow (E : Engine) (OriginalMesh : FDynamicMesh3)
    (Options : FGeometryScriptPlusSimplifyMeshOptions)
    (TargetMode : ERuntimeSimplifyTargetType)
    (TargetPercentage : ℚ) (TargetCount : ℤ) (TargetEdgeLength PolyEdgeAngleTolerance : FloatVal)
    (hVariant : Options.SimplifyType ≠ ERuntimeSimplifyType.MinimalPolygroup) :
    ∃ (R : Reducer) (W : FDynamicMesh3),
      (CalculateResult.Dispatch E OriginalMesh Options TargetMode TargetPercentage TargetCount
        TargetEdgeLength PolyEdgeAngleTolerance).Reducer = some R ∧
      W.AttributeSet = (OriginalMesh.Copy true true true (!Options.bDiscardAttributes)).AttributeSet ∧
      R.ExternalConstraints = some
        { Mesh := if W.HasAttributes then E.SplitAllBowties W else W
          MeshBoundaryConstraint := EEdgeRefineFlags.NoFlip
          GroupBoundaryConstraint := EEdgeRefineFlags.NoConstraint
          MaterialBoundaryConstraint := EEdgeRefineFlags.NoConstraint
          bAllowSeamSplits := true
          bAllowSeamSmoothing := false
          bAllowSeamCollapse := true } ∧
      R.bAllowSeamCollapse = some true ∧
      R.MeshBoundaryConstraint = some EEdgeRefineFlags.NoFlip ∧
      R.GroupBoundaryConstraint = some EEdgeRefineFlags.NoConstraint ∧
      R.MaterialBoundaryConstraint = some EEdgeRefineFlags.NoConstraint ∧
      (CalculateResult.Dispatch E OriginalMesh Options TargetMode TargetPercentage TargetCount
        TargetEdgeLength PolyEdgeAngleTolerance).Mesh =
        E.Simplify R
          (match (if Options.SimplifyType = ERuntimeSimplifyType.MinimalPlanar
                  then ERuntimeSimplifyTargetType.MinimalPlanar else TargetMode) with
            | ERuntimeSimplifyTargetType.Percentage =>
              ReduceCall.SimplifyToTriangleCount
                (max 4 (truncToInt32
                  (toDouble (toDouble (TargetPercentage / 100) * (OriginalMesh.TriangleCount : ℚ)))))
            | ERuntimeSimplifyTargetType.TriangleCount =>
              ReduceCall.SimplifyToTriangleCount TargetCount
            | ERuntimeSimplifyTargetType.VertexCount => ReduceCall.SimplifyToVertexCount TargetCount
            | ERuntimeSimplifyTargetType.EdgeLength => ReduceCall.SimplifyToEdgeLength TargetEdgeLength
            | ERuntimeSimplifyTargetType.MinimalPlanar =>
              ReduceCall.SimplifyToMinimalPlanar MinimalAngleThreshold)
          (if W.HasAttributes then E.SplitAllBowties W else W) := by
  obtain ⟨st, bd, bg, tol, br⟩ := Options
  cases st
  case MinimalPolygroup => exact absurd rfl hVariant
  case QEM =>
    refine ⟨?_, OriginalMesh.Copy true true true (!bd), ?_, ?_, ?_, ?_, ?_, ?_, ?_, ?_⟩
    rotate_left
    · simp only [CalculateResult.Dispatch]
      exact ComputeSimplify_Reducer _ _ _ _ _ _ _ _ _ _ _ _ _ _ _ _ _ _ _
    · rfl
    · simp
    · rfl
    · rfl
    · rfl
    · rfl
    · simp only [CalculateResult.Dispatch]
      rw [ComputeSimplify_Mesh _ _ _ _ _ _ _ _ _ _ _ _ _ _ _ _ _ _ _ _
        (ComputeSimplify_Reducer _ _ _ _ _ _ _ _ _ _ _ _ _ _ _ _ _ _ _)]
      simp
  case MinimalExistingVertex =>
    refine ⟨?_, OriginalMesh.Copy true true true (!bd), ?_, ?_, ?_, ?_, ?_, ?_, ?_, ?_⟩
    rotate_left
    · simp only [CalculateResult.Dispatch]
      exact ComputeSimplify_Reducer _ _ _ _ _ _ _ _ _ _ _ _ _ _ _ _ _ _ _
    · rfl
    · simp
    · rfl
    · rfl
    · rfl
    · rfl
    · simp only [CalculateResult.Dispatch]
      rw [ComputeSimplify_Mesh _ _ _ _ _ _ _ _ _ _ _ _ _ _ _ _ _ _ _ _
        (ComputeSimplify_Reducer _ _ _ _ _ _ _ _ _ _ _ _ _ _ _ _ _ _ _)]
      simp
  case Attribute =>
    refine ⟨?_, (if (!(OriginalMesh.Copy true true true (!bd)).HasAttributes
          && !(OriginalMesh.Copy true true true (!bd)).HasVertexNormals) = true
        then { OriginalMesh.Copy true true true (!bd) with
          VertexNormals := some (E.QuickComputeVertexNormals
            (OriginalMesh.Copy true true true (!bd)) false) }
        else OriginalMesh.Copy true true true (!bd)), ?_, ?_, ?_, ?_, ?_, ?_, ?_, ?_⟩
    rotate_left
    · simp only [CalculateResult.Dispatch]
      exact ComputeSimplify_Reducer _ _ _ _ _ _ _ _ _ _ _ _ _ _ _ _ _ _ _
    · split_ifs <;> rfl
    · simp
    · rfl
    · rfl
    · rfl
    · rfl
    · simp only [CalculateResult.Dispatch]
      rw [ComputeSimplify_Mesh _ _ _ _ _ _ _ _ _ _ _ _ _ _ _ _ _ _ _ _
        (ComputeSimplify_Reducer _ _ _ _ _ _ _ _ _ _ _ _ _ _ _ _ _ _ _)]
      simp
  case MinimalPlanar =>
    refine ⟨?_, (if (!(OriginalMesh.Copy true true true (!bd)).HasAttributes
          && !(OriginalMesh.Copy true true true (!bd)).HasVertexNormals) = true
        then { OriginalMesh.Copy true true true (!bd) with
          VertexNormals := some (E.QuickComputeVertexNormals
            (OriginalMesh.Copy true true true (!bd)) false) }
        else OriginalMesh.Copy true true true (!bd)), ?_, ?_, ?_, ?_, ?_, ?_, ?_, ?_⟩
    rotate_left
    · simp only [CalculateResult.Dispatch]
      exact ComputeSimplify_Reducer _ _ _ _ _ _ _ _ _ _ _ _ _ _ _ _ _ _ _
    · split_ifs <;> rfl
    · simp
    · rfl
    · rfl
    · rfl
    · rfl
    · simp only [CalculateResult.Dispatch]
      rw [ComputeSimplify_Mesh _ _ _ _ _ _ _ _ _ _ _ _ _ _ _ _ _ _ _ _
        (ComputeSimplify_Reducer _ _ _ _ _ _ _ _ _ _ _ _ _ _ _ _ _ _ _)]
      simp


/-- The reduce call of the public entry point for a percentage `p` in
`[1, 100]` on a mesh whose triangle count fits an `int`, for the three variants
that honour the percentage: one `SimplifyToTriangleCount(t)`, where `t` is the
clamp of the exact `floor(p / 100 * N)` or of one less, and the clamp of the
exact value whenever `100` does not divide `p * N`. -/
theorem ApplySimplifyToTargetPercentage_target_within_one (E : Engine)
    (Meshes : ℕ → FDynamicMesh3) (TargetMesh : ℕ)
    (Options : FGeometryScriptPlusSimplifyMeshOptions) (TargetPercentage : ℤ) (Debug : Ptr)
    (hVariant : Options.SimplifyType ≠ ERuntimeSimplifyType.MinimalPolygroup)
    (hShape : Options.SimplifyType ≠ ERuntimeSimplifyType.MinimalPlanar)
    (hp1 : 1 ≤ TargetPercentage) (hp2 : TargetPercentage ≤ 100)
    (hN : (Meshes TargetMesh).TriangleCount < 2 ^ 31) :
    ∃ t : ℤ,
      (ApplySimplifyToTargetPercentage E Meshes (some TargetMesh) Options TargetPercentage
        Debug).Calls.filter Call.isReduce = [Call.Reduce (ReduceCall.SimplifyToTriangleCount t)] ∧
      (t = max 4 ⌊(TargetPercentage : ℚ) / 100 * (Meshes TargetMesh).TriangleCount⌋
        ∨ t = max 4 (⌊(TargetPercentage : ℚ) / 100 * (Meshes TargetMesh).TriangleCount⌋ - 1)) ∧
      (¬ (100 : ℤ) ∣ TargetPercentage * (Meshes TargetMesh).TriangleCount →
        t = max 4 ⌊(TargetPercentage : ℚ) / 100 * (Meshes TargetMesh).TriangleCount⌋) := by
  have hN0 : 0 ≤ (Meshes TargetMesh).TriangleCount := by
    simp [FDynamicMesh3.TriangleCount]
  obtain ⟨h1, h2⟩ := percentage_target_floor_or_one_less TargetPercentage
    (Meshes TargetMesh).TriangleCount hp1 hp2 hN0 hN
  refine ⟨max 4 (truncToInt32 (toDouble (toDouble (toFloat (TargetPercentage : ℚ) / 100)
    * ((Meshes TargetMesh).TriangleCount : ℚ)))), ?_, ?_, ?_⟩
  · unfold ApplySimplifyToTargetPercentage
    simp only []
    rw [CalculateResult_reduce_calls _ _ _ _ _ _ _ _ _ hVariant]
    simp only [hShape, if_false]
  · rcases h1 with h | h
    · left; rw [h]
    · right; rw [h]
  · intro hd
    rw [h2 hd]

/-! ## Properties of the specification, checked on the code -/

/-- Claim C1, evaluated where the code departs from it: for a mesh of 100
triangles and a percentage of 29 (any collaborators, quadric variant) the only
reduce call is `SimplifyToTriangleCount(28)`, while the claimed target
`max(4, floor(29/100 * 100))` is 29.  The `double` nearest to `0.29` lies below
`29/100`, its product with `100` rounds to the `double` just below `29`, and the
conversion `(int)` truncates.  By `ApplySimplifyToTargetPercentage_target_within_one`
the code is never more than one below the claimed target, never above it, and
agrees with it whenever `100` does not divide `p * N`. -/
theorem percentage_29_of_100_triangles_requests_28 (E : Engine) (Debug : Ptr) :
    (ApplySimplifyToTargetPercentage E (fun _ => HundredTriangles) (some 0)
        { SimplifyType := ERuntimeSimplifyType.QEM } 29 Debug).Calls.filter Call.isReduce
      = [Call.Reduce (ReduceCall.SimplifyToTriangleCount 28)] ∧
    HundredTriangles.TriangleCount = 100 ∧
    max (4 : ℤ) ⌊(29 : ℚ) / 100 * (100 : ℚ)⌋ = 29 := by
  refine ⟨?_, ?_, ?_⟩
  · unfold ApplySimplifyToTargetPercentage
    simp only []
    rw [CalculateResult_reduce_calls _ _ _ _ _ _ _ _ _ (by simp)]
    have hN : HundredTriangles.TriangleCount = 100 := by decide
    simp only [hN]
    rw [UseTarget_29_percent_of_100]
    simp
  · decide
  · norm_num

/-- Claim C2: for the shape-preserving variant (`SimplifyType = MinimalPlanar`),
whatever `bDiscardAttributes`, `bGeometricConstraint`, `GeometricTolerance`,
`bReproject` and the caller's target are, the simplifier is configured with
tolerance 0: `GeometricErrorConstraint` and `GeometricErrorTolerance` are never
written, the projection target is attached exactly when `bReproject` is set, and
`SetProjectionTarget` is called exactly then. -/
theorem shapePreserving_tolerance_forced_zero (E : Engine) (Meshes : ℕ → FDynamicMesh3)
    (TargetMesh : ℕ) (bDiscardAttributes bGeometricConstraint bReproject : Bool)
    (GeometricTolerance : FloatVal) (TargetMode : ERuntimeSimplifyTargetType)
    (TargetPercentage : ℚ) (TargetCount : ℤ) (TargetEdgeLength PolyEdgeAngleTolerance : FloatVal) :
    ∃ R : Reducer,
      (CalculateResult E Meshes TargetMesh
        { SimplifyType := ERuntimeSimplifyType.MinimalPlanar
          bDiscardAttributes := bDiscardAttributes
          bGeometricConstraint := bGeometricConstraint
          GeometricTolerance := GeometricTolerance
          bReproject := bReproject }
        TargetMode TargetPercentage TargetCount TargetEdgeLength PolyEdgeAngleTolerance).Reducer
        = some R ∧
      R.GeometricErrorConstraint = none ∧
      R.GeometricErrorTolerance = none ∧
      (R.ProjectionTarget = if bReproject then some (Meshes TargetMesh) else none) ∧
      (CalculateResult E Meshes TargetMesh
        { SimplifyType := ERuntimeSimplifyType.MinimalPlanar
          bDiscardAttributes := bDiscardAttributes
          bGeometricConstraint := bGeometricConstraint
          GeometricTolerance := GeometricTolerance
          bReproject := bReproject }
        TargetMode TargetPercentage TargetCount TargetEdgeLength PolyEdgeAngleTolerance).Calls.filter
          (fun c => decide (c = Call.SetProjectionTarget))
        = if bReproject then [Call.SetProjectionTarget] else [] := by
  rw [CalculateResult_Reducer, CalculateResult_Calls_filter _ _ _ _ _ _ _ _ _ _ (by simp) (by simp) (by simp) (by simp) (by simp)]
  cases bReproject <;>
    simp [CalculateResult.Dispatch, ComputeSimplify, ComputeSimplify.Setup, FloatVal.gtZero,
      List.filter_append, List.filter_cons] <;>
    split_ifs <;> simp

/-- Claim C3: called with a null mesh handle, `ApplySimplifyToTargetPercentage`
reports exactly one `InvalidInputs` error, returns the null handle, makes no call
on any collaborator, constructs no simplifier and leaves every mesh as it was;
called with a non-null handle it reports no error and returns that handle. -/
theorem ApplySimplifyToTargetPercentage_null_handle (E : Engine) (Meshes : ℕ → FDynamicMesh3)
    (Options : FGeometryScriptPlusSimplifyMeshOptions) (TargetPercentage : ℤ) (Debug : Ptr) :
    (ApplySimplifyToTargetPercentage E Meshes none Options TargetPercentage Debug).Errors
        = [(Debug, EGeometryScriptErrorType.InvalidInputs)] ∧
    (ApplySimplifyToTargetPercentage E Meshes none Options TargetPercentage Debug).Return = none ∧
    (ApplySimplifyToTargetPercentage E Meshes none Options TargetPercentage Debug).Calls = [] ∧
    (ApplySimplifyToTargetPercentage E Meshes none Options TargetPercentage Debug).Reducer = none ∧
    (ApplySimplifyToTargetPercentage E Meshes none Options TargetPercentage Debug).Meshes = Meshes ∧
    ∀ a : ℕ,
      (ApplySimplifyToTargetPercentage E Meshes (some a) Options TargetPercentage Debug).Errors = [] ∧
      (ApplySimplifyToTargetPercentage E Meshes (some a) Options TargetPercentage Debug).Return
        = some a := by
  refine ⟨rfl, rfl, rfl, rfl, rfl, fun a => ⟨rfl, rfl⟩⟩

/-- Claim C4 as amended: for every variant, every options value and every
source mesh, the mesh committed by `CalculateResult` has an attribute set, and it
has per-vertex normals exactly when the working mesh left the dispatch without
an attribute set (the repair then computes them) or already with per-vertex
normals. -/
theorem committed_mesh_vertex_normals (E : Engine) (Meshes : ℕ → FDynamicMesh3) (TargetMesh : ℕ)
    (Options : FGeometryScriptPlusSimplifyMeshOptions) (TargetMode : ERuntimeSimplifyTargetType)
    (TargetPercentage : ℚ) (TargetCount : ℤ) (TargetEdgeLength PolyEdgeAngleTolerance : FloatVal) :
    ((CalculateResult E Meshes TargetMesh Options TargetMode TargetPercentage TargetCount
      TargetEdgeLength PolyEdgeAngleTolerance).Meshes TargetMesh).HasAttributes = true ∧
    ((CalculateResult E Meshes TargetMesh Options TargetMode TargetPercentage TargetCount
      TargetEdgeLength PolyEdgeAngleTolerance).Meshes TargetMesh).HasVertexNormals =
      (!(CalculateResult.Dispatch E (Meshes TargetMesh) Options TargetMode TargetPercentage
          TargetCount TargetEdgeLength PolyEdgeAngleTolerance).Mesh.HasAttributes
        || (CalculateResult.Dispatch E (Meshes TargetMesh) Options TargetMode TargetPercentage
          TargetCount TargetEdgeLength PolyEdgeAngleTolerance).Mesh.HasVertexNormals) := by
  simp only [CalculateResult, Function.update_same]
  generalize CalculateResult.Dispatch E (Meshes TargetMesh) Options TargetMode TargetPercentage
    TargetCount TargetEdgeLength PolyEdgeAngleTolerance = s
  cases h : s.Mesh.HasAttributes
  · rw [AttributeRepair_of_no_attributes E s h]
    simp [FDynamicMesh3.HasAttributes, FDynamicMesh3.HasVertexNormals]
  · rw [AttributeRepair_of_attributes E s h]
    simp [h]

/-- Counterexample to claim C4 as stated: a triangle whose normals live in the
attribute overlays only, simplified with any of the four edge-collapse variants
at 50 percent (nothing to collapse), is committed without per-vertex normals. -/
theorem overlay_only_mesh_committed_without_vertex_normals :
    ((ApplySimplifyToTargetPercentage IdleEngine (fun _ => OverlayTriangle) (some 0)
        { SimplifyType := ERuntimeSimplifyType.QEM } 50 none).Meshes 0).HasVertexNormals = false ∧
    ((ApplySimplifyToTargetPercentage IdleEngine (fun _ => OverlayTriangle) (some 0)
        { SimplifyType := ERuntimeSimplifyType.Attribute } 50 none).Meshes 0).HasVertexNormals
      = false ∧
    ((ApplySimplifyToTargetPercentage IdleEngine (fun _ => OverlayTriangle) (some 0)
        { SimplifyType := ERuntimeSimplifyType.MinimalExistingVertex } 50 none).Meshes
          0).HasVertexNormals = false ∧
    ((ApplySimplifyToTargetPercentage IdleEngine (fun _ => OverlayTriangle) (some 0)
        { SimplifyType := ERuntimeSimplifyType.MinimalPlanar } 50 none).Meshes 0).HasVertexNormals
      = false ∧
    OverlayTriangle.HasAttributes = true ∧ OverlayTriangle.HasVertexNormals = false := by
  refine ⟨rfl, rfl, rfl, rfl, rfl, rfl⟩

/-- Claim C5: a polygroup-preserving run (`SimplifyType = MinimalPolygroup`),
whatever `bGeometricConstraint`, `GeometricTolerance` and `bReproject` are,
constructs no simplifier and makes no call on one (no constraint set, no
projection target, no error criterion, no reduce call); its only engine run is
the polygroup remesher with the given angle tolerance; and the whole outcome is
the one obtained with the three options switched off.  The spatial index is
built, as on every run, but nothing is handed it. -/
theorem polygroupPreserving_zero_reducer_calls (E : Engine) (Meshes : ℕ → FDynamicMesh3)
    (TargetMesh : ℕ) (bDiscardAttributes bGeometricConstraint bReproject : Bool)
    (GeometricTolerance : FloatVal) (TargetMode : ERuntimeSimplifyTargetType)
    (TargetPercentage : ℚ) (TargetCount : ℤ) (TargetEdgeLength PolyEdgeAngleTolerance : FloatVal) :
    (CalculateResult E Meshes TargetMesh
        { SimplifyType := ERuntimeSimplifyType.MinimalPolygroup
          bDiscardAttributes := bDiscardAttributes
          bGeometricConstraint := bGeometricConstraint
          GeometricTolerance := GeometricTolerance
          bReproject := bReproject }
        TargetMode TargetPercentage TargetCount TargetEdgeLength PolyEdgeAngleTolerance).Reducer
      = none ∧
    (CalculateResult E Meshes TargetMesh
        { SimplifyType := ERuntimeSimplifyType.MinimalPolygroup
          bDiscardAttributes := bDiscardAttributes
          bGeometricConstraint := bGeometricConstraint
          GeometricTolerance := GeometricTolerance
          bReproject := bReproject }
        TargetMode TargetPercentage TargetCount TargetEdgeLength
        PolyEdgeAngleTolerance).Calls.filter Call.isReducerCall
      = [] ∧
    (CalculateResult E Meshes TargetMesh
        { SimplifyType := ERuntimeSimplifyType.MinimalPolygroup
          bDiscardAttributes := bDiscardAttributes
          bGeometricConstraint := bGeometricConstraint
          GeometricTolerance := GeometricTolerance
          bReproject := bReproject }
        TargetMode TargetPercentage TargetCount TargetEdgeLength
        PolyEdgeAngleTolerance).Calls.filter Call.isEngineRun
      = [Call.PolygroupRemeshCompute PolyEdgeAngleTolerance] ∧
    (CalculateResult.Dispatch E (Meshes TargetMesh)
        { SimplifyType := ERuntimeSimplifyType.MinimalPolygroup
          bDiscardAttributes := bDiscardAttributes
          bGeometricConstraint := bGeometricConstraint
          GeometricTolerance := GeometricTolerance
          bReproject := bReproject }
        TargetMode TargetPercentage TargetCount TargetEdgeLength PolyEdgeAngleTolerance).Calls
      = [Call.BuildSpatialIndex, Call.MeshCopy true true true (!bDiscardAttributes),
          Call.BuildGroupTopology, Call.PolygroupRemeshCompute PolyEdgeAngleTolerance] ∧
    CalculateResult E Meshes TargetMesh
        { SimplifyType := ERuntimeSimplifyType.MinimalPolygroup
          bDiscardAttributes := bDiscardAttributes
          bGeometricConstraint := bGeometricConstraint
          GeometricTolerance := GeometricTolerance
          bReproject := bReproject }
        TargetMode TargetPercentage TargetCount TargetEdgeLength PolyEdgeAngleTolerance
      = CalculateResult E Meshes TargetMesh
        { SimplifyType := ERuntimeSimplifyType.MinimalPolygroup
          bDiscardAttributes := bDiscardAttributes
          bGeometricConstraint := false
          GeometricTolerance := FloatVal.finite 0
          bReproject := false }
        TargetMode TargetPercentage TargetCount TargetEdgeLength PolyEdgeAngleTolerance := by
  refine ⟨?_, ?_, ?_, ?_, ?_⟩
  · rw [CalculateResult_Reducer]; rfl
  · rw [CalculateResult_Calls_filter _ _ _ _ _ _ _ _ _ _ rfl rfl rfl rfl rfl]
    simp [CalculateResult.Dispatch, Call.isReducerCall]
  · rw [CalculateResult_Calls_filter _ _ _ _ _ _ _ _ _ _ rfl rfl rfl rfl rfl]
    simp [CalculateResult.Dispatch, Call.isEngineRun]
  · simp [CalculateResult.Dispatch]
  · rfl

/-- Claim C6: in every quadric or attribute-aware run (any variant but the
polygroup one, any target mode), with the effective tolerance of the
specification (`GeometricTolerance` when `bGeometricConstraint` is set, else 0,
and 0 when the target mode handed to the simplifier is `MinimalPlanar`): the
projection target is attached, and `SetProjectionTarget` called, if and only if
`bReproject` is set or the effective tolerance is positive; the geometric-error
criterion is written if and only if the effective tolerance is positive, and
then `GeometricErrorTolerance` is the effective tolerance; with
`bGeometricConstraint` unset neither is written and the projection target
follows `bReproject` alone. -/
theorem projection_target_and_error_criterion (E : Engine) (Meshes : ℕ → FDynamicMesh3)
    (TargetMesh : ℕ) (Options : FGeometryScriptPlusSimplifyMeshOptions)
    (TargetMode : ERuntimeSimplifyTargetType)
    (TargetPercentage : ℚ) (TargetCount : ℤ) (TargetEdgeLength PolyEdgeAngleTolerance : FloatVal)
    (hVariant : Options.SimplifyType ≠ ERuntimeSimplifyType.MinimalPolygroup) :
    ∃ R : Reducer,
      (CalculateResult E Meshes TargetMesh Options TargetMode TargetPercentage TargetCount
        TargetEdgeLength PolyEdgeAngleTolerance).Reducer = some R ∧
      (R.ProjectionTarget = some (Meshes TargetMesh) ↔
        (Options.bReproject = true ∨ (Spec.EffectiveTolerance Options TargetMode).gtZero = true)) ∧
      (R.ProjectionTarget = none ↔
        ¬ (Options.bReproject = true ∨ (Spec.EffectiveTolerance Options TargetMode).gtZero = true)) ∧
      ((CalculateResult E Meshes TargetMesh Options TargetMode TargetPercentage TargetCount
          TargetEdgeLength PolyEdgeAngleTolerance).Calls.filter
          (fun c => decide (c = Call.SetProjectionTarget))
        = if Options.bReproject || (Spec.EffectiveTolerance Options TargetMode).gtZero
          then [Call.SetProjectionTarget] else []) ∧
      (R.GeometricErrorConstraint = some EGeometricErrorCriteria.PredictedPointToProjectionTarget ↔
        (Spec.EffectiveTolerance Options TargetMode).gtZero = true) ∧
      (R.GeometricErrorConstraint = none ↔
        (Spec.EffectiveTolerance Options TargetMode).gtZero = false) ∧
      (R.GeometricErrorTolerance =
        if (Spec.EffectiveTolerance Options TargetMode).gtZero
        then some (Spec.EffectiveTolerance Options TargetMode) else none) ∧
      (Options.bGeometricConstraint = false →
        R.GeometricErrorConstraint = none ∧ R.GeometricErrorTolerance = none ∧
        (R.ProjectionTarget = if Options.bReproject then some (Meshes TargetMesh) else none)) := by
  obtain ⟨R, hR, hP, hC, hT⟩ := Dispatch_projection E (Meshes TargetMesh) Options TargetMode
    TargetPercentage TargetCount TargetEdgeLength PolyEdgeAngleTolerance hVariant
  rw [CalculateResult_Reducer]
  refine ⟨R, hR, ?_, ?_, ?_, ?_, ?_, hT, ?_⟩
  · rw [hP]
    cases Options.bReproject <;> cases (Spec.EffectiveTolerance Options TargetMode).gtZero <;> simp
  · rw [hP]
    cases Options.bReproject <;> cases (Spec.EffectiveTolerance Options TargetMode).gtZero <;> simp
  · exact CalculateResult_projection_calls E Meshes TargetMesh Options TargetMode
      TargetPercentage TargetCount TargetEdgeLength PolyEdgeAngleTolerance hVariant
  · rw [hC]; cases (Spec.EffectiveTolerance Options TargetMode).gtZero <;> simp
  · rw [hC]; cases (Spec.EffectiveTolerance Options TargetMode).gtZero <;> simp
  · intro hbg
    have h0 := EffectiveTolerance_of_no_constraint Options TargetMode hbg
    rw [hP, hC, hT, h0]
    simp

/-- Witness for claim C6: the quadric variant with a geometric constraint of
one half on a single triangle. -/
theorem projection_target_and_error_criterion_witness :
    ConstrainedQuadricOptions.SimplifyType ≠ ERuntimeSimplifyType.MinimalPolygroup ∧
    ∃ R : Reducer,
      (CalculateResult IdleEngine PerVertexTriangleStore 0 ConstrainedQuadricOptions
        ERuntimeSimplifyTargetType.Percentage 50 1000
        (FloatVal.finite 5) (FloatVal.finite (1 / 8))).Reducer = some R ∧
      (R.ProjectionTarget = some (PerVertexTriangleStore 0) ↔
        (ConstrainedQuadricOptions.bReproject = true ∨
          (Spec.EffectiveTolerance ConstrainedQuadricOptions
            ERuntimeSimplifyTargetType.Percentage).gtZero = true)) ∧
      (R.ProjectionTarget = none ↔
        ¬ (ConstrainedQuadricOptions.bReproject = true ∨
          (Spec.EffectiveTolerance ConstrainedQuadricOptions
            ERuntimeSimplifyTargetType.Percentage).gtZero = true)) ∧
      ((CalculateResult IdleEngine PerVertexTriangleStore 0 ConstrainedQuadricOptions
        ERuntimeSimplifyTargetType.Percentage 50 1000
          (FloatVal.finite 5) (FloatVal.finite (1 / 8))).Calls.filter
          (fun c => decide (c = Call.SetProjectionTarget))
        = if ConstrainedQuadricOptions.bReproject ||
          (Spec.EffectiveTolerance ConstrainedQuadricOptions
            ERuntimeSimplifyTargetType.Percentage).gtZero
          then [Call.SetProjectionTarget] else []) ∧
      (R.GeometricErrorConstraint = some EGeometricErrorCriteria.PredictedPointToProjectionTarget ↔
        (Spec.EffectiveTolerance ConstrainedQuadricOptions
            ERuntimeSimplifyTargetType.Percentage).gtZero = true) ∧
      (R.GeometricErrorConstraint = none ↔
        (Spec.EffectiveTolerance ConstrainedQuadricOptions
            ERuntimeSimplifyTargetType.Percentage).gtZero = false) ∧
      (R.GeometricErrorTolerance =
        if (Spec.EffectiveTolerance ConstrainedQuadricOptions
            ERuntimeSimplifyTargetType.Percentage).gtZero
        then some (Spec.EffectiveTolerance ConstrainedQuadricOptions
            ERuntimeSimplifyTargetType.Percentage) else none) ∧
      (ConstrainedQuadricOptions.bGeometricConstraint = false →
        R.GeometricErrorConstraint = none ∧ R.GeometricErrorTolerance = none ∧
        (R.ProjectionTarget =
          if ConstrainedQuadricOptions.bReproject then some (PerVertexTriangleStore 0) else none)) :=
  ⟨by decide,
    projection_target_and_error_criterion IdleEngine PerVertexTriangleStore 0
      ConstrainedQuadricOptions
      ERuntimeSimplifyTargetType.Percentage 50 1000 (FloatVal.finite 5) (FloatVal.finite (1 / 8))
      (by decide)⟩

/-- Claim C7: for a `Percentage` target and every options value the simplifier
follows the dispatch table: the quadric variant uses the quadric reducer with
`MinimalQuadricPositionError` and quadric memory retained; the attribute-aware
variant uses the attribute-aware reducer with `MinimalQuadricPositionError` and
quadric memory not retained; the existing-vertex variant uses the quadric
reducer with `MinimalExistingVertexError` and quadric memory retained. -/
theorem dispatch_table_percentage (E : Engine) (Meshes : ℕ → FDynamicMesh3)
    (TargetMesh : ℕ) (bDiscardAttributes bGeometricConstraint bReproject : Bool)
    (GeometricTolerance : FloatVal)
    (TargetPercentage : ℚ) (TargetCount : ℤ) (TargetEdgeLength PolyEdgeAngleTolerance : FloatVal) :
    (∃ R : Reducer,
      (CalculateResult E Meshes TargetMesh
        { SimplifyType := ERuntimeSimplifyType.QEM
          bDiscardAttributes := bDiscardAttributes
          bGeometricConstraint := bGeometricConstraint
          GeometricTolerance := GeometricTolerance
          bReproject := bReproject }
        ERuntimeSimplifyTargetType.Percentage TargetPercentage TargetCount TargetEdgeLength
        PolyEdgeAngleTolerance).Reducer = some R ∧
      R.Kind = SimplificationType.FQEMSimplification ∧
      R.CollapseMode = some ESimplificationCollapseModes.MinimalQuadricPositionError ∧
      R.bRetainQuadricMemory = some true) ∧
    (∃ R : Reducer,
      (CalculateResult E Meshes TargetMesh
        { SimplifyType := ERuntimeSimplifyType.Attribute
          bDiscardAttributes := bDiscardAttributes
          bGeometricConstraint := bGeometricConstraint
          GeometricTolerance := GeometricTolerance
          bReproject := bReproject }
        ERuntimeSimplifyTargetType.Percentage TargetPercentage TargetCount TargetEdgeLength
        PolyEdgeAngleTolerance).Reducer = some R ∧
      R.Kind = SimplificationType.FAttrMeshSimplification ∧
      R.CollapseMode = some ESimplificationCollapseModes.MinimalQuadricPositionError ∧
      R.bRetainQuadricMemory = some false) ∧
    (∃ R : Reducer,
      (CalculateResult E Meshes TargetMesh
        { SimplifyType := ERuntimeSimplifyType.MinimalExistingVertex
          bDiscardAttributes := bDiscardAttributes
          bGeometricConstraint := bGeometricConstraint
          GeometricTolerance := GeometricTolerance
          bReproject := bReproject }
        ERuntimeSimplifyTargetType.Percentage TargetPercentage TargetCount TargetEdgeLength
        PolyEdgeAngleTolerance).Reducer = some R ∧
      R.Kind = SimplificationType.FQEMSimplification ∧
      R.CollapseMode = some ESimplificationCollapseModes.MinimalExistingVertexError ∧
      R.bRetainQuadricMemory = some true) := by
  simp only [CalculateResult_Reducer]
  refine ⟨?_, ?_, ?_⟩ <;>
    simp [CalculateResult.Dispatch, ComputeSimplify, ComputeSimplify.Setup] <;>
    split_ifs <;> simp

/-- Claim C8: for the shape-preserving variant, whatever target mode, percentage,
count and edge length the caller supplies, the quadric reducer runs with
collapse mode `AverageVertexPosition` and quadric memory not retained, and the
only reduce call is `SimplifyToMinimalPlanar` with the fixed angle threshold,
the `float` nearest to 0.01; no triangle-count, vertex-count or edge-length
reduce call is made. -/
theorem shapePreserving_forces_minimal_planar (E : Engine) (Meshes : ℕ → FDynamicMesh3)
    (TargetMesh : ℕ) (bDiscardAttributes bGeometricConstraint bReproject : Bool)
    (GeometricTolerance : FloatVal) (TargetMode : ERuntimeSimplifyTargetType)
    (TargetPercentage : ℚ) (TargetCount : ℤ) (TargetEdgeLength PolyEdgeAngleTolerance : FloatVal) :
    ∃ R : Reducer,
      (CalculateResult E Meshes TargetMesh
        { SimplifyType := ERuntimeSimplifyType.MinimalPlanar
          bDiscardAttributes := bDiscardAttributes
          bGeometricConstraint := bGeometricConstraint
          GeometricTolerance := GeometricTolerance
          bReproject := bReproject }
        TargetMode TargetPercentage TargetCount TargetEdgeLength PolyEdgeAngleTolerance).Reducer
        = some R ∧
      R.Kind = SimplificationType.FQEMSimplification ∧
      R.CollapseMode = some ESimplificationCollapseModes.AverageVertexPosition ∧
      R.bRetainQuadricMemory = some false ∧
      (CalculateResult E Meshes TargetMesh
        { SimplifyType := ERuntimeSimplifyType.MinimalPlanar
          bDiscardAttributes := bDiscardAttributes
          bGeometricConstraint := bGeometricConstraint
          GeometricTolerance := GeometricTolerance
          bReproject := bReproject }
        TargetMode TargetPercentage TargetCount TargetEdgeLength
        PolyEdgeAngleTolerance).Calls.filter Call.isReduce
        = [Call.Reduce (ReduceCall.SimplifyToMinimalPlanar MinimalAngleThreshold)] ∧
      MinimalAngleThreshold = FloatVal.finite (10737418 / 2 ^ 30) := by
  refine ⟨?_, ?_, ?_, ?_, ?_, ?_, MinimalAngleThreshold_eq⟩
  rotate_left
  · rw [CalculateResult_Reducer]
    simp only [CalculateResult.Dispatch]
    exact ComputeSimplify_Reducer _ _ _ _ _ _ _ _ _ _ _ _ _ _ _ _ _ _ _
  · rfl
  · rfl
  · rfl
  · rw [CalculateResult_reduce_calls _ _ _ _ _ _ _ _ _ (by simp)]
    simp

/-- Claim C9 as amended: for every variant and every options value, when the
working mesh leaves the dispatch with no attribute set, the repair recomputes
per-vertex normals, enables the attribute set and copies per-vertex data into
the new overlays: the normal overlay receives the per-vertex normals, and the UV
overlay receives the per-vertex UVs exactly when per-vertex UVs exist; a working
mesh that has an attribute set, populated or empty, is committed as the engine
produced it. -/
theorem attribute_repair_on_missing_attribute_set (E : Engine) (Meshes : ℕ → FDynamicMesh3)
    (TargetMesh : ℕ)
    (Options : FGeometryScriptPlusSimplifyMeshOptions) (TargetMode : ERuntimeSimplifyTargetType)
    (TargetPercentage : ℚ) (TargetCount : ℤ) (TargetEdgeLength PolyEdgeAngleTolerance : FloatVal) :
    (CalculateResult E Meshes TargetMesh Options TargetMode TargetPercentage TargetCount
      TargetEdgeLength PolyEdgeAngleTolerance).Meshes TargetMesh =
      (if (CalculateResult.Dispatch E (Meshes TargetMesh) Options TargetMode TargetPercentage
            TargetCount TargetEdgeLength PolyEdgeAngleTolerance).Mesh.HasAttributes
        then (CalculateResult.Dispatch E (Meshes TargetMesh) Options TargetMode TargetPercentage
            TargetCount TargetEdgeLength PolyEdgeAngleTolerance).Mesh
        else
          { (CalculateResult.Dispatch E (Meshes TargetMesh) Options TargetMode TargetPercentage
              TargetCount TargetEdgeLength PolyEdgeAngleTolerance).Mesh with
            VertexNormals := some (E.QuickComputeVertexNormals
              (CalculateResult.Dispatch E (Meshes TargetMesh) Options TargetMode TargetPercentage
                TargetCount TargetEdgeLength PolyEdgeAngleTolerance).Mesh false)
            AttributeSet := some
              { PrimaryUV :=
                  (CalculateResult.Dispatch E (Meshes TargetMesh) Options TargetMode TargetPercentage
                    TargetCount TargetEdgeLength PolyEdgeAngleTolerance).Mesh.VertexUVs.getD []
                PrimaryNormals := E.QuickComputeVertexNormals
                  (CalculateResult.Dispatch E (Meshes TargetMesh) Options TargetMode TargetPercentage
                    TargetCount TargetEdgeLength PolyEdgeAngleTolerance).Mesh false } }) ∧
    (CalculateResult E Meshes TargetMesh Options TargetMode TargetPercentage TargetCount
      TargetEdgeLength PolyEdgeAngleTolerance).Calls =
      (CalculateResult.Dispatch E (Meshes TargetMesh) Options TargetMode TargetPercentage
        TargetCount TargetEdgeLength PolyEdgeAngleTolerance).Calls ++
      (if (CalculateResult.Dispatch E (Meshes TargetMesh) Options TargetMode TargetPercentage
            TargetCount TargetEdgeLength PolyEdgeAngleTolerance).Mesh.HasAttributes
        then []
        else [Call.QuickComputeVertexNormals false, Call.EnableAttributes] ++
          (if (CalculateResult.Dispatch E (Meshes TargetMesh) Options TargetMode TargetPercentage
                TargetCount TargetEdgeLength PolyEdgeAngleTolerance).Mesh.HasVertexUVs
            then [Call.CopyVertexUVsToOverlay] else []) ++
          [Call.CopyVertexNormalsToOverlay]) ++
      [Call.SetMesh] := by
  simp only [CalculateResult, Function.update_same]
  generalize CalculateResult.Dispatch E (Meshes TargetMesh) Options TargetMode TargetPercentage
    TargetCount TargetEdgeLength PolyEdgeAngleTolerance = s
  cases h : s.Mesh.HasAttributes
  · rw [AttributeRepair_of_no_attributes E s h]
    simp
  · rw [AttributeRepair_of_attributes E s h]
    simp

/-- Counterexample to claim C9 as stated: a mesh whose attribute set is
enabled with both overlays empty while per-vertex normals and UVs exist reaches
the repair in that state and is committed in that state: neither copy is made
and both overlays stay empty. -/
theorem empty_overlays_stay_empty :
    (CalculateResult.Dispatch IdleEngine EmptyOverlayVertices
        { SimplifyType := ERuntimeSimplifyType.QEM } ERuntimeSimplifyTargetType.Percentage
        (toFloat 50) 1000 (FloatVal.finite (toFloat 5))
        (FloatVal.finite (toFloat (toDouble (1 / 10))))).Mesh = EmptyOverlayVertices ∧
    EmptyOverlayVertices.AttributeSet = some { PrimaryUV := [], PrimaryNormals := [] } ∧
    EmptyOverlayVertices.VertexNormals = some [30, 31, 32] ∧
    EmptyOverlayVertices.VertexUVs = some [20, 21, 22] ∧
    ((ApplySimplifyToTargetPercentage IdleEngine (fun _ => EmptyOverlayVertices) (some 0)
        { SimplifyType := ERuntimeSimplifyType.QEM } 50 none).Meshes 0).AttributeSet
      = some { PrimaryUV := [], PrimaryNormals := [] } ∧
    (ApplySimplifyToTargetPercentage IdleEngine (fun _ => EmptyOverlayVertices) (some 0)
        { SimplifyType := ERuntimeSimplifyType.QEM } 50 none).Calls.filter
        (fun c => decide (c = Call.CopyVertexNormalsToOverlay ∨ c = Call.CopyVertexUVsToOverlay))
      = [] := by
  refine ⟨rfl, rfl, rfl, rfl, rfl, rfl⟩

/-- Claim C10: in every quadric or attribute-aware run the steps on the working
mesh come in this order and each once: the bowtie split (made exactly when the
working copy has an attribute set, seam collapse being always allowed), then
the construction of the constraint set with mesh-boundary `NoFlip`,
polygroup-boundary `NoConstraint` and material-boundary `NoConstraint`, then its
installation, then the single reduce call.  The installed constraint set was
computed on the mesh after the bowtie split, and the reduce call works on that
mesh. -/
theorem bowtie_split_constraints_reduce_in_order (E : Engine) (Meshes : ℕ → FDynamicMesh3)
    (TargetMesh : ℕ) (Options : FGeometryScriptPlusSimplifyMeshOptions)
    (TargetMode : ERuntimeSimplifyTargetType)
    (TargetPercentage : ℚ) (TargetCount : ℤ) (TargetEdgeLength PolyEdgeAngleTolerance : FloatVal)
    (hVariant : Options.SimplifyType ≠ ERuntimeSimplifyType.MinimalPolygroup) :
    ∃ (R : Reducer) (c : ReduceCall) (W : FDynamicMesh3),
      (CalculateResult E Meshes TargetMesh Options TargetMode TargetPercentage TargetCount
        TargetEdgeLength PolyEdgeAngleTolerance).Calls.filter Call.isSequencedStep =
        (if ((Meshes TargetMesh).Copy true true true (!Options.bDiscardAttributes)).HasAttributes
          then [Call.SplitAllBowties] else []) ++
        [Call.ConstrainAllBoundariesAndSeams EEdgeRefineFlags.NoFlip EEdgeRefineFlags.NoConstraint
            EEdgeRefineFlags.NoConstraint true false true,
          Call.SetExternalConstraints, Call.Reduce c] ∧
      (CalculateResult E Meshes TargetMesh Options TargetMode TargetPercentage TargetCount
        TargetEdgeLength PolyEdgeAngleTolerance).Reducer = some R ∧
      R.bAllowSeamCollapse = some true ∧
      W.AttributeSet =
        ((Meshes TargetMesh).Copy true true true (!Options.bDiscardAttributes)).AttributeSet ∧
      R.ExternalConstraints = some
        { Mesh := if W.HasAttributes then E.SplitAllBowties W else W
          MeshBoundaryConstraint := EEdgeRefineFlags.NoFlip
          GroupBoundaryConstraint := EEdgeRefineFlags.NoConstraint
          MaterialBoundaryConstraint := EEdgeRefineFlags.NoConstraint
          bAllowSeamSplits := true
          bAllowSeamSmoothing := false
          bAllowSeamCollapse := true } ∧
      (CalculateResult.Dispatch E (Meshes TargetMesh) Options TargetMode TargetPercentage
        TargetCount TargetEdgeLength PolyEdgeAngleTolerance).Mesh =
        E.Simplify R c (if W.HasAttributes then E.SplitAllBowties W else W) := by
  obtain ⟨pre, k, c, hCalls, hpre, hc⟩ := Dispatch_Calls E (Meshes TargetMesh) Options TargetMode
    TargetPercentage TargetCount TargetEdgeLength PolyEdgeAngleTolerance hVariant
  obtain ⟨R, W, hR, hW, hX, hS, -, -, -, hM⟩ := Dispatch_dataflow E (Meshes TargetMesh) Options
    TargetMode TargetPercentage TargetCount TargetEdgeLength PolyEdgeAngleTolerance hVariant
  refine ⟨R, c, W, ?_, ?_, hS, hW, hX, ?_⟩
  · rw [CalculateResult_Calls_filter _ _ _ _ _ _ _ _ _ _ rfl rfl rfl rfl rfl, hCalls]
    have hp : pre.filter Call.isSequencedStep = [] := by
      rw [List.filter_eq_nil_iff]
      intro p hp
      rcases hpre p hp with rfl | rfl | rfl <;> simp [Call.isSequencedStep]
    rw [List.filter_append, hp]
    split_ifs <;> simp [List.filter_append, List.filter_cons, Call.isSequencedStep]
  · rw [CalculateResult_Reducer, hR]
  · rw [hM, hc]

/-- Witness for claim C10: the quadric variant on a single triangle. -/
theorem bowtie_split_constraints_reduce_in_order_witness :
    ConstrainedQuadricOptions.SimplifyType ≠ ERuntimeSimplifyType.MinimalPolygroup ∧
    ∃ (R : Reducer) (c : ReduceCall) (W : FDynamicMesh3),
      (CalculateResult IdleEngine PerVertexTriangleStore 0 ConstrainedQuadricOptions
        ERuntimeSimplifyTargetType.Percentage 50 1000
        (FloatVal.finite 5) (FloatVal.finite (1 / 8))).Calls.filter Call.isSequencedStep =
        (if ((PerVertexTriangleStore 0).Copy true true true (!ConstrainedQuadricOptions.bDiscardAttributes)).HasAttributes
          then [Call.SplitAllBowties] else []) ++
        [Call.ConstrainAllBoundariesAndSeams EEdgeRefineFlags.NoFlip EEdgeRefineFlags.NoConstraint
            EEdgeRefineFlags.NoConstraint true false true,
          Call.SetExternalConstraints, Call.Reduce c] ∧
      (CalculateResult IdleEngine PerVertexTriangleStore 0 ConstrainedQuadricOptions
        ERuntimeSimplifyTargetType.Percentage 50 1000
        (FloatVal.finite 5) (FloatVal.finite (1 / 8))).Reducer = some R ∧
      R.bAllowSeamCollapse = some true ∧
      W.AttributeSet =
        ((PerVertexTriangleStore 0).Copy true true true (!ConstrainedQuadricOptions.bDiscardAttributes)).AttributeSet ∧
      R.ExternalConstraints = some
        { Mesh := if W.HasAttributes then IdleEngine.SplitAllBowties W else W
          MeshBoundaryConstraint := EEdgeRefineFlags.NoFlip
          GroupBoundaryConstraint := EEdgeRefineFlags.NoConstraint
          MaterialBoundaryConstraint := EEdgeRefineFlags.NoConstraint
          bAllowSeamSplits := true
          bAllowSeamSmoothing := false
          bAllowSeamCollapse := true } ∧
      (CalculateResult.Dispatch IdleEngine (PerVertexTriangleStore 0) ConstrainedQuadricOptions
        ERuntimeSimplifyTargetType.Percentage 50
        1000 (FloatVal.finite 5) (FloatVal.finite (1 / 8))).Mesh =
        IdleEngine.Simplify R c (if W.HasAttributes then IdleEngine.SplitAllBowties W else W) :=
  ⟨by decide,
    bowtie_split_constraints_reduce_in_order IdleEngine PerVertexTriangleStore 0
      ConstrainedQuadricOptions
      ERuntimeSimplifyTargetType.Percentage 50 1000 (FloatVal.finite 5) (FloatVal.finite (1 / 8))
      (by decide)⟩

end GeometryScriptingPlus
